import Mathlib

/-!
# Verification of the CyTRIM trajectory-engine specification

Shallow embedding of the pytrim Monte-Carlo ion-transport engine
(`src/pytrim/...`) over the real numbers, together with proofs and
refutations of the specification claims.

Floating-point arithmetic of the Python/numpy source is modelled by exact
real arithmetic; Lean's total-division convention `x / 0 = 0` stands in for
the IEEE behaviour at the (junk) points where the source would produce
`inf`/`nan`.  Python functions that can raise are translated to
`Except`-valued functions.

Module map:
* `Scatter`       — `pytrim/scatter.py` (ZBL screening, apsis estimate,
                    Biersack magic formula, scalar scatter kernel)
* `ScatterBulk`   — `pytrim/numba_bulk/scatter_bulk.py` (row of the
                    vectorised scatter kernel; same formulas, no zero-norm
                    fallback)
* `Estop`         — `pytrim/estop.py` / `numba_bulk_par/estop_bulk.py`
* `Geometry`      — `pytrim/geometry.py` / `pytrim/bulk/geometry.py`
* `SelectRecoil`  — `pytrim/select_recoil.py` and the rowwise content of
                    `bulk/select_recoil_bulk.py`
* `TrajectoryBulk`— `pytrim/bulk/trajectory_bulk.py` (identical loop logic
                    in `numba_bulk_par/trajectory_bulk.py`)
* `Cascade`       — `pytrim/cascade.py` (scalar driver, no recoil following)
* `Statistics`    — `pytrim/statistics.py`
-/

noncomputable section

open Real

/-- 3-vectors, mirroring the `ndarray` of size 3 used throughout the code. -/
structure V3 where
  x : ℝ
  y : ℝ
  z : ℝ

namespace V3

def zero : V3 := ⟨0, 0, 0⟩

def add (a b : V3) : V3 := ⟨a.x + b.x, a.y + b.y, a.z + b.z⟩

def sub (a b : V3) : V3 := ⟨a.x - b.x, a.y - b.y, a.z - b.z⟩

def smul (c : ℝ) (a : V3) : V3 := ⟨c * a.x, c * a.y, c * a.z⟩

/-- Elementwise division by a scalar (`v / norm` in numpy). -/
def sdiv (a : V3) (c : ℝ) : V3 := ⟨a.x / c, a.y / c, a.z / c⟩

def dot (a b : V3) : ℝ := a.x * b.x + a.y * b.y + a.z * b.z

/-- `np.linalg.norm` of a size-3 vector. -/
def norm (a : V3) : ℝ := Real.sqrt (a.x ^ 2 + a.y ^ 2 + a.z ^ 2)

end V3

namespace Scatter

/-! ### Constants of `pytrim/scatter.py` -/

/-- ZBL screening coefficient. -/
def A1 : ℝ := 0.18175

/-- ZBL screening coefficient. -/
def A2 : ℝ := 0.50986

/-- ZBL screening coefficient. -/
def A3 : ℝ := 0.28022

/-- ZBL screening coefficient. -/
def A4 : ℝ := 0.02817

/-- ZBL screening exponent. -/
def B1 : ℝ := 3.1998

/-- ZBL screening exponent. -/
def B2 : ℝ := 0.94229

/-- ZBL screening exponent. -/
def B3 : ℝ := 0.4029

/-- ZBL screening exponent. -/
def B4 : ℝ := 0.20162

def A1B1 : ℝ := A1 * B1

def A2B2 : ℝ := A2 * B2

def A3B3 : ℝ := A3 * B3

def A4B4 : ℝ := A4 * B4

/-- `ZBLscreen`: the ZBL screening function and its derivative
(`scatter.py`, lines 59-76). -/
def ZBLscreen (r : ℝ) : ℝ × ℝ :=
  let exp1 := Real.exp (-B1 * r)
  let exp2 := Real.exp (-B2 * r)
  let exp3 := Real.exp (-B3 * r)
  let exp4 := Real.exp (-B4 * r)
  (A1 * exp1 + A2 * exp2 + A3 * exp3 + A4 * exp4,
   -(A1B1 * exp1 + A2B2 * exp2 + A3B3 * exp3 + A4B4 * exp4))

/-- Constant of the apsis estimation (factor of the 1/R part). -/
def K2 : ℝ := 0.38

/-- Constant of the apsis estimation (factor of the 1/R^3 part). -/
def K3 : ℝ := 7.2

def K1 : ℝ := 1 / (4 * K2)

def R12sq : ℝ := (2 * K2) ^ 2

def R23sq : ℝ := K3 / K2

/-- `estimate_apsis` (`scatter.py`, lines 87-120) with `NITER = 1`:
the branchy initial estimate followed by one Newton-Raphson correction
(the early-exit residuum test has no effect for a single iteration). -/
def estimate_apsis (e p : ℝ) : ℝ :=
  let psq := p ^ 2
  let r0sq := 0.5 * (psq + Real.sqrt (psq ^ 2 + 4 * K3 / e))
  let r0 :=
    if r0sq < R23sq then
      let r0sq' := psq + K2 / e
      if r0sq' < R12sq then
        (1 + Real.sqrt (1 + 4 * e * (e + K1) * psq)) / (2 * (e + K1))
      else Real.sqrt r0sq'
    else Real.sqrt r0sq
  let sd := ZBLscreen r0
  let numerator := r0 * (r0 - sd.1 / e) - p ^ 2
  let denominator := 2 * r0 - (sd.1 + r0 * sd.2) / e
  r0 - numerator / denominator

/-- Magic-formula constant. -/
def C1 : ℝ := 0.99229

/-- Magic-formula constant. -/
def C2 : ℝ := 0.011615

/-- Magic-formula constant. -/
def C3 : ℝ := 0.007122

/-- Magic-formula constant. -/
def C4 : ℝ := 14.813

/-- Magic-formula constant. -/
def C5 : ℝ := 9.3066

/-- `magic` (`scatter.py`, lines 129-157): Biersack's magic formula for
`cos(θ/2)` in the CM system.  The source prints a warning when the result
exceeds 1 but returns the raw value unchanged; there is no clamping, so the
returned value is exactly the formula value. -/
def magic (e p : ℝ) : ℝ :=
  let r0 := estimate_apsis e p
  let sd := ZBLscreen r0
  let screen := sd.1
  let dscreen := sd.2
  let rho := 2 * (e * r0 - screen) / (screen / r0 - dscreen)
  let sqrte := Real.sqrt e
  let alpha := 1 + C1 / sqrte
  let beta := (C2 + sqrte) / (C3 + sqrte)
  let gamma := (C4 + e) / (C5 + e)
  let a := 2 * alpha * e * p ^ beta
  let g := gamma / (Real.sqrt (1 + a ^ 2) - a)
  let delta := a * (r0 - p) / (1 + g)
  (p + rho + delta) / (r0 + rho)

/-- Condition under which `magic` prints its out-of-range warning
(`scatter.py`, lines 153-155).  The value is returned unclamped either way. -/
def magicWarns (e p : ℝ) : Prop := 1 < magic e p

/-- The spec-mandated variant of the magic formula
(spec §4.4: "Clamp to [−1, 1]"); stated for comparison with `magic`,
which performs no clamping. -/
def magicClampedSpec (e p : ℝ) : ℝ := max (-1) (min 1 (magic e p))

/-- Module parameters set by `scatter.setup` for one projectile species:
`ENORM, RNORM, DIRFAC, DENFAC` (indexed tuples in the source). -/
structure Params where
  enorm : Fin 2 → ℝ
  rnorm : Fin 2 → ℝ
  dirfac : Fin 2 → ℝ
  denfac : Fin 2 → ℝ

/-- `scatter.setup` (`scatter.py`, lines 17-40): derived species constants
from atomic numbers and masses.  Entry 0 describes the primary ion on the
target atom, entry 1 the target atom moving among its own kind. -/
def setup (z1 m1 z2 m2 : ℝ) : Params :=
  let m1_m2 := m1 / m2
  let rn : Fin 2 → ℝ := ![0.4685 / (z1 ^ (0.23 : ℝ) + z2 ^ (0.23 : ℝ)),
                          0.4685 / (z2 ^ (0.23 : ℝ) + z2 ^ (0.23 : ℝ))]
  { enorm := ![14.39979 * z1 * z2 / rn 0 * (1 + m1_m2),
               14.39979 * z2 * z2 / rn 1 * (1 + 1)]
    rnorm := rn
    dirfac := ![2 / (1 + m1_m2), 1]
    denfac := ![4 * m1_m2 / (1 + m1_m2) ^ 2, 1] }

/-- The `Projectile` data class of `pytrim/mytypes.py`. -/
structure Projectile where
  e : ℝ
  pos : V3
  dir : V3
  ispec : Fin 2
  is_inside : Bool

/-- Post-collision vector/energy computation of the scalar `scatter`
(`scatter.py`, lines 182-207), factored over the already-computed
`cos_half_theta`.  Includes the zero-norm fallbacks of lines 191-200. -/
def scatterPost (dirfac denfac : ℝ) (cos_half_theta : ℝ) (e : ℝ) (dir dirp : V3) :
    V3 × V3 × ℝ :=
  let sin_psi := cos_half_theta
  let cos_psi := Real.sqrt (1 - sin_psi ^ 2)
  let recoil_dir := V3.smul (dirfac * cos_psi)
    (V3.add (V3.smul cos_psi dir) (V3.smul sin_psi dirp))
  let dir_new := V3.sub dir recoil_dir
  let norm1 := dir_new.norm
  let dir_new' := if norm1 = 0 then dir else dir_new.sdiv norm1
  let norm2 := recoil_dir.norm
  let recoil_dir' := if norm2 = 0 then dir else recoil_dir.sdiv norm2
  let recoil_e := denfac * e * (1 - cos_half_theta ^ 2)
  (dir_new', recoil_dir', recoil_e)

/-- `scatter` (`scatter.py`, lines 160-207): returns the updated projectile,
the recoil direction and the recoil energy. -/
def scatter (prm : Params) (proj : Projectile) (p : ℝ) (dirp : V3) :
    Projectile × V3 × ℝ :=
  let cos_half_theta := magic (proj.e / prm.enorm proj.ispec) (p / prm.rnorm proj.ispec)
  let post := scatterPost (prm.dirfac proj.ispec) (prm.denfac proj.ispec)
    cos_half_theta proj.e proj.dir dirp
  ({ proj with dir := post.1, e := proj.e - post.2.2 }, post.2.1, post.2.2)

end Scatter

namespace ScatterBulk

/-- Post-collision computation of one row of the vectorised `scatter`
(`numba_bulk/scatter_bulk.py`, lines 193-209), factored over the computed
`cos_half_theta`.  Unlike the scalar version there is NO zero-norm
fallback: both renormalisation divisions are unconditional. -/
def scatterPost (dirfac denfac : ℝ) (cos_half_theta : ℝ) (e : ℝ) (dir dirp : V3) :
    V3 × ℝ × V3 × ℝ :=
  let sin_psi := cos_half_theta
  let cos_psi := Real.sqrt (1 - sin_psi ^ 2)
  let dir_recoil := V3.smul (dirfac * cos_psi)
    (V3.add (V3.smul cos_psi dir) (V3.smul sin_psi dirp))
  let dir_new := V3.sub dir dir_recoil
  let dir_new' := dir_new.sdiv dir_new.norm
  let dir_recoil' := dir_recoil.sdiv dir_recoil.norm
  let e_recoil := denfac * e * (1 - cos_half_theta ^ 2)
  (dir_new', e - e_recoil, dir_recoil', e_recoil)

/-- One row of the vectorised `scatter` (`numba_bulk/scatter_bulk.py`,
lines 162-209); the module-level `setup` of that file stores scalar
`ENORM, RNORM, DIRFAC, DENFAC` (no species index). -/
def scatter (enorm rnorm dirfac denfac : ℝ) (e : ℝ) (dir : V3) (p : ℝ) (dirp : V3) :
    V3 × ℝ × V3 × ℝ :=
  scatterPost dirfac denfac (Scatter.magic (e / enorm) (p / rnorm)) e dir dirp

end ScatterBulk

namespace Estop

/-- `eloss` (`estop.py`, lines 36-50): Lindhard electronic energy loss over
a free path, clamped to the current energy.  `fac` is
`FAC_LINDHARD[proj.ispec] * DENSITY` merged into the per-species factor;
the vectorised `eloss` of `numba_bulk_par/estop_bulk.py` computes the same
expression elementwise with `np.where(dee > e, e, dee)`. -/
def eloss (fac_lindhard density : ℝ) (e : ℝ) (free_path : ℝ) : ℝ :=
  let dee := fac_lindhard * density * Real.sqrt e * free_path
  if dee > e then e else dee

end Estop

namespace Geometry

/-- `is_inside_target` (`geometry.py`, lines 27-39): planar-slab test
`ZMIN <= pos[2] <= ZMAX`. -/
def is_inside_target (zmin zmax : ℝ) (pos : V3) : Bool :=
  decide (zmin ≤ pos.z ∧ pos.z ≤ zmax)

end Geometry

namespace SelectRecoil

/-- `np.argmin(np.abs(dir))` with numpy's first-minimum tie-breaking
(`select_recoil.py`, line 54). -/
def argmin3 (v : V3) : ℕ :=
  if |v.x| ≤ |v.y| ∧ |v.x| ≤ |v.z| then 0
  else if |v.y| ≤ |v.z| then 1 else 2

/-- `sin_alpha` of the perpendicular-basis construction
(`select_recoil.py`, line 58): with `k = argmin3 dir`, `i = (k+1) % 3`,
`j = (i+1) % 3`, this is `sqrt(dir[i]^2 + dir[j]^2)`. -/
def sinAlpha (dir : V3) : ℝ :=
  match argmin3 dir with
  | 0 => Real.sqrt (dir.y ^ 2 + dir.z ^ 2)
  | 1 => Real.sqrt (dir.z ^ 2 + dir.x ^ 2)
  | _ => Real.sqrt (dir.x ^ 2 + dir.y ^ 2)

/-- The impact-direction vector before renormalisation
(`select_recoil.py`, lines 54-66), as a function of the direction and the
sampled azimuth cosine/sine `cos_fi`, `sin_fi`.  With `k = argmin3 dir`:
`dirp[i] = cos_fi*cos_alpha*cos_phi - sin_fi*sin_phi`,
`dirp[j] = cos_fi*cos_alpha*sin_phi + sin_fi*cos_phi`,
`dirp[k] = -cos_fi*sin_alpha`, where `cos_alpha = dir[k]`,
`cos_phi = dir[i]/sin_alpha`, `sin_phi = dir[j]/sin_alpha`. -/
def dirpRaw (dir : V3) (cos_fi sin_fi : ℝ) : V3 :=
  match argmin3 dir with
  | 0 =>
    let sa := Real.sqrt (dir.y ^ 2 + dir.z ^ 2)
    ⟨-cos_fi * sa,
     cos_fi * dir.x * (dir.y / sa) - sin_fi * (dir.z / sa),
     cos_fi * dir.x * (dir.z / sa) + sin_fi * (dir.y / sa)⟩
  | 1 =>
    let sa := Real.sqrt (dir.z ^ 2 + dir.x ^ 2)
    ⟨cos_fi * dir.y * (dir.x / sa) + sin_fi * (dir.z / sa),
     -cos_fi * sa,
     cos_fi * dir.y * (dir.z / sa) - sin_fi * (dir.x / sa)⟩
  | _ =>
    let sa := Real.sqrt (dir.x ^ 2 + dir.y ^ 2)
    ⟨cos_fi * dir.z * (dir.x / sa) - sin_fi * (dir.y / sa),
     cos_fi * dir.z * (dir.y / sa) + sin_fi * (dir.x / sa),
     -cos_fi * sa⟩

/-- `get_recoil_position` (`select_recoil.py`, lines 30-73).  The two
uniform draws `np.random.rand()` are passed explicitly as `u1, u2`;
`mfp` and `pmax` are the module variables `MEAN_FREE_PATH` and `PMAX`.
Returns `(free_path, p, dirp, pos_recoil)`. -/
def get_recoil_position (mfp pmax : ℝ) (pos dir : V3) (u1 u2 : ℝ) :
    ℝ × ℝ × V3 × V3 :=
  let free_path := mfp
  let pos_collision := V3.add pos (V3.smul free_path dir)
  let p := pmax * Real.sqrt u1
  let fi := 2 * Real.pi * u2
  let dirp0 := dirpRaw dir (Real.cos fi) (Real.sin fi)
  let dirp := dirp0.sdiv dirp0.norm
  (free_path, p, dirp, V3.add pos_collision (V3.smul p dirp))

end SelectRecoil

namespace TrajectoryBulk

/-- Module constants used by the bulk driver and the kernels it imports
(set by the various `setup()` calls). -/
structure Setup where
  emin : ℝ
  zmin : ℝ
  zmax : ℝ
  mfp : ℝ
  pmax : ℝ
  fac_lindhard : ℝ
  density : ℝ
  enorm : ℝ
  rnorm : ℝ
  dirfac : ℝ
  denfac : ℝ

/-- Structure-of-arrays batch state of `bulk/trajectory_bulk.py`. -/
structure BState where
  e : List ℝ
  pos : List V3
  dir : List V3
  inside : List Bool

/-- `np.argwhere((e > EMIN) & (is_inside)).flatten()`
(`bulk/trajectory_bulk.py`, line 57): the ascending list of indices of
ions that are above the cut-off energy and still inside the target. -/
def validIons (emin : ℝ) (s : BState) : List ℕ :=
  (List.range s.e.length).filter
    (fun i => decide (emin < s.e.getD i 0) && s.inside.getD i false)

/-- The loop-continuation test of `bulk/trajectory_bulk.py`, lines 58-59
(identical in `numba_bulk_par/trajectory_bulk.py`, lines 57-58):
`if not valid_ions.any(): break`.  numpy's `ndarray.any()` on the INDEX
array is `True` iff some element is nonzero, so the loop continues iff
some nonzero index is in the active set. -/
def stepCond (emin : ℝ) (s : BState) : Bool :=
  (validIons emin s).any (fun k => k != 0)

/-- Write the values `vals` back to the positions `idx` of `l`
(`e[valid_ions] = e_current` etc., lines 77-80). -/
def writeBack {α : Type} (l : List α) (idx : List ℕ) (vals : List α) : List α :=
  (idx.zip vals).foldl (fun acc iv => acc.set iv.1 iv.2) l

/-- One iteration of the `while True` body of `trajectories`
(`bulk/trajectory_bulk.py`, lines 57-80).  The source gathers the active
rows, applies every kernel elementwise to the gathered arrays and writes
the results back; here the same elementwise computation is performed per
active index.  `rng` supplies the pair of uniform draws that
`get_recoil_position`'s two `np.random.rand(n)` calls produce for each
active row. -/
def trajStep (st : Setup) (rng : List (ℝ × ℝ)) (s : BState) : BState :=
  let A := validIons st.emin s
  let rows := (A.zip rng).map (fun iu =>
    let i := iu.1
    let e0 := s.e.getD i 0
    let pos0 := s.pos.getD i V3.zero
    let dir0 := s.dir.getD i V3.zero
    let grp := SelectRecoil.get_recoil_position st.mfp st.pmax pos0 dir0 iu.2.1 iu.2.2
    let free_path := grp.1
    let p := grp.2.1
    let dirp := grp.2.2.1
    let dee := Estop.eloss st.fac_lindhard st.density e0 free_path
    let e1 := e0 - dee
    let pos1 := V3.add pos0 (V3.smul free_path dir0)
    let inside1 := Geometry.is_inside_target st.zmin st.zmax pos1
    let sc := ScatterBulk.scatter st.enorm st.rnorm st.dirfac st.denfac e1 dir0 p dirp
    (i, sc.2.1, pos1, sc.1, inside1))
  { e := rows.foldl (fun acc r => acc.set r.1 r.2.1) s.e
    pos := rows.foldl (fun acc r => acc.set r.1 r.2.2.1) s.pos
    dir := rows.foldl (fun acc r => acc.set r.1 r.2.2.2.1) s.dir
    inside := rows.foldl (fun acc r => acc.set r.1 r.2.2.2.2) s.inside }

/-- The `while True` loop of `trajectories`, with explicit fuel (the source
loop runs until the break condition holds; `trajRun` returns the loop state
unchanged once `stepCond` is false).  `k` counts iterations so that `rngs`
can supply fresh uniform draws per iteration. -/
def trajRun (st : Setup) (rngs : ℕ → List (ℝ × ℝ)) : ℕ → ℕ → BState → BState
  | 0, _, s => s
  | fuel + 1, k, s =>
    if stepCond st.emin s then trajRun st rngs fuel (k + 1) (trajStep st (rngs k) s)
    else s

/-- `trajectories` (`bulk/trajectory_bulk.py`, lines 35-83) up to fuel. -/
def trajectories (st : Setup) (rngs : ℕ → List (ℝ × ℝ)) (fuel : ℕ) (s : BState) :
    BState :=
  trajRun st rngs fuel 0 s

end TrajectoryBulk

namespace Cascade

/-- Module constants seen by the scalar driver of `cascade.py`. -/
structure Setup where
  emin : ℝ
  zmin : ℝ
  zmax : ℝ
  mfp : ℝ
  pmax : ℝ
  fac_lindhard : ℝ
  density : ℝ
  prm : Scatter.Params

/-- The body of the `while proj.e > EMIN` loop of `trajectory`
(`cascade.py`, lines 38-58) with `follow_recoils = False`, as fuel-bounded
recursion.  When the advanced position leaves the target the loop breaks
with `is_inside := false` BEFORE scattering (lines 44-46); otherwise the
projectile is scattered and the loop continues. -/
def trajectoryRun (st : Setup) (rngs : ℕ → ℝ × ℝ) :
    ℕ → ℕ → Scatter.Projectile → Scatter.Projectile
  | 0, _, proj => proj
  | fuel + 1, k, proj =>
    if st.emin < proj.e then
      let grp := SelectRecoil.get_recoil_position st.mfp st.pmax proj.pos proj.dir
        (rngs k).1 (rngs k).2
      let dee := Estop.eloss st.fac_lindhard st.density proj.e grp.1
      let e1 := proj.e - dee
      let pos1 := V3.add proj.pos (V3.smul grp.1 proj.dir)
      if Geometry.is_inside_target st.zmin st.zmax pos1 = false then
        { proj with e := e1, pos := pos1, is_inside := false }
      else
        let sc := Scatter.scatter st.prm { proj with e := e1, pos := pos1 }
          grp.2.1 grp.2.2.1
        trajectoryRun st rngs fuel (k + 1) sc.1
    else proj

end Cascade

namespace Statistics

/-- Error kinds: `valueError`/`overflowError` are the Python exceptions the
statistics code can actually raise; `emptyPopulation` is the error kind
named by the specification (§7), which the code never produces. -/
inductive StatError
  | valueError
  | overflowError
  | emptyPopulation
deriving DecidableEq

/-- `Moment_1d` (`statistics.py`, lines 15-93): raw power sums
`_mom[ivar][j] = Σ x^j` for `j = 0 .. 2*nmax`. -/
structure Moment_1d where
  nvar : ℕ
  nmax : ℕ
  mom : List (List ℝ)

/-- `Moment_1d.__init__` (lines 38-44): raises `ValueError` unless
`1 ≤ nmax ≤ 4`. -/
def Moment_1d.init (nvar nmax : ℕ) : Except StatError Moment_1d :=
  if nmax < 1 ∨ 4 < nmax then .error .valueError
  else .ok ⟨nvar, nmax, List.replicate nvar (List.replicate (2 * nmax + 1) 0)⟩

/-- `Moment_1d.score` (lines 46-48): `_mom[ivar,:] += value ** orders`. -/
def Moment_1d.score (m : Moment_1d) (ivar : ℕ) (value : ℝ) : Moment_1d :=
  let row := m.mom.getD ivar []
  let row' := (List.range (2 * m.nmax + 1)).map (fun j => row.getD j 0 + value ^ j)
  { m with mom := m.mom.set ivar row' }

/-- `count = _mom[:,0]` (line 52). -/
def Moment_1d.count (m : Moment_1d) : List ℝ := m.mom.map (fun row => row.getD 0 0)

/-- `Moment_1d.central_moments` (`statistics.py`, lines 50-60): normalise
the power sums by `count` and expand binomially.  The numpy division
`mom / count` is total (it produces `nan`/`inf` rows when `count = 0`,
with a runtime warning, never an exception); real division with the
`x / 0 = 0` convention stands in for those junk values. -/
def Moment_1d.central_moments (m : Moment_1d) : List (List ℝ) :=
  m.mom.map (fun row =>
    let c := row.getD 0 0
    let momn := row.map (fun v => v / c)
    (List.range (2 * m.nmax + 1)).map (fun i =>
      momn.getD i 0 +
        ∑ j ∈ Finset.Icc 1 i,
          (Nat.choose i j : ℝ) * momn.getD (i - j) 0 * (-momn.getD 1 0) ^ j))

/-- `central_moments` as a fallible query, faithful to the Python call
(which raises nothing): the result is always `ok`. -/
def Moment_1d.central_momentsE (m : Moment_1d) :
    Except StatError (List (List ℝ)) :=
  .ok m.central_moments

/-- `central_moments` as the specification describes the query
(spec §4.6: "Fail with `EMPTY_POPULATION` if `count = 0` for a requested
species"); stated for comparison with the source behaviour. -/
def Moment_1d.central_momentsSpec (m : Moment_1d) :
    Except StatError (List (List ℝ)) :=
  if 0 ∈ m.count then .error .emptyPopulation else .ok m.central_moments

/-- `Moment_1d.mean` (lines 62-66), given the central moments. -/
def Moment_1d.mean (m : Moment_1d) (cen : List (List ℝ)) : List (ℝ × ℝ) :=
  (List.range m.nvar).map (fun ivar =>
    ((m.mom.getD ivar []).getD 1 0 / m.count.getD ivar 0,
     Real.sqrt ((cen.getD ivar []).getD 2 0 / m.count.getD ivar 0)))

/-- `Moment_1d._cenmom_err` (lines 86-93). -/
def Moment_1d.cenmom_err (m : Moment_1d) (cen : List (List ℝ)) (i : ℕ) :
    List ℝ :=
  (List.range m.nvar).map (fun ivar =>
    let r := cen.getD ivar []
    Real.sqrt ((r.getD (2 * i) 0 - 2 * i * r.getD (i - 1) 0 * r.getD (i + 1) 0
        - r.getD i 0 ^ 2 + (i : ℝ) ^ 2 * r.getD 2 0 * r.getD (i - 1) 0 ^ 2)
      / m.count.getD ivar 0))

/-- `Moment_1d.std` (lines 68-72). -/
def Moment_1d.std (m : Moment_1d) (cen : List (List ℝ)) : List (ℝ × ℝ) :=
  (List.range m.nvar).map (fun ivar =>
    let s := Real.sqrt ((cen.getD ivar []).getD 2 0)
    (s, (m.cenmom_err cen 2).getD ivar 0 / (2 * s)))

/-- `Moment_1d.skewness` (lines 74-78); `x ** 1.5` is real rpow. -/
def Moment_1d.skewness (m : Moment_1d) (cen : List (List ℝ)) : List (ℝ × ℝ) :=
  (List.range m.nvar).map (fun ivar =>
    let c2 := (cen.getD ivar []).getD 2 0
    ((cen.getD ivar []).getD 3 0 / c2 ^ (1.5 : ℝ),
     (m.cenmom_err cen 3).getD ivar 0 / c2 ^ (1.5 : ℝ)))

/-- `Moment_1d.kurtosis` (lines 80-84). -/
def Moment_1d.kurtosis (m : Moment_1d) (cen : List (List ℝ)) : List (ℝ × ℝ) :=
  (List.range m.nvar).map (fun ivar =>
    let c2 := (cen.getD ivar []).getD 2 0
    ((cen.getD ivar []).getD 4 0 / c2 ^ 2,
     (m.cenmom_err cen 4).getD ivar 0 / c2 ^ 2))

/-- One species' worth of output of `print_results`. -/
inductive Report
  | noAtoms (ivar : ℕ)
  | stats (ivar : ℕ) (mean mean_err std std_err skew skew_err kurt kurt_err : ℝ)
deriving DecidableEq

/-- `print_results` (`statistics.py`, lines 157-183): computes the central
moments and all four statistics up front, then per species either prints
the "No atoms stopped inside the target." message (when `count[ivar] == 0`)
or the statistics lines.  No error is raised for an empty population. -/
def print_results (m : Moment_1d) : List Report :=
  let cen := m.central_moments
  let mean := m.mean cen
  let std := m.std cen
  let skew := m.skewness cen
  let kurt := m.kurtosis cen
  (List.range m.nvar).map (fun ivar =>
    if m.count.getD ivar 0 = 0 then Report.noAtoms ivar
    else Report.stats ivar (mean.getD ivar (0, 0)).1 (mean.getD ivar (0, 0)).2
      (std.getD ivar (0, 0)).1 (std.getD ivar (0, 0)).2
      (skew.getD ivar (0, 0)).1 (skew.getD ivar (0, 0)).2
      (kurt.getD ivar (0, 0)).1 (kurt.getD ivar (0, 0)).2)

/-- A Python/numpy float value as fed to `Histogram_1d.score`:
finite, infinite or `nan`. -/
inductive PyVal
  | nan
  | inf
  | ninf
  | val (x : ℝ)

namespace PyVal

/-- Float comparison `value < c`: `nan` compares false. -/
def lt (v : PyVal) (c : ℝ) : Bool :=
  match v with
  | nan => false
  | inf => false
  | ninf => true
  | val x => decide (x < c)

/-- Float comparison `value >= c`: `nan` compares false. -/
def ge (v : PyVal) (c : ℝ) : Bool :=
  match v with
  | nan => false
  | inf => true
  | ninf => false
  | val x => decide (c ≤ x)

/-- Float subtraction of a finite constant. -/
def sub (v : PyVal) (c : ℝ) : PyVal :=
  match v with
  | nan => nan
  | inf => inf
  | ninf => ninf
  | val x => val (x - c)

/-- Float division by a finite constant (numpy semantics at the
corner cases). -/
def div (v : PyVal) (c : ℝ) : PyVal :=
  match v with
  | nan => nan
  | inf => if 0 < c then inf else if c < 0 then ninf else nan
  | ninf => if 0 < c then ninf else if c < 0 then inf else nan
  | val x => if c = 0 then (if x = 0 then nan else if 0 < x then inf else ninf)
             else val (x / c)

/-- Python `int()` truncation toward zero of a real number. -/
def intTrunc (x : ℝ) : ℤ := if 0 ≤ x then ⌊x⌋ else ⌈x⌉

/-- Python `int(value)`: raises `ValueError` on `nan` and `OverflowError`
on infinities. -/
def toInt (v : PyVal) : Except StatError ℤ :=
  match v with
  | nan => .error .valueError
  | inf => .error .overflowError
  | ninf => .error .overflowError
  | val x => .ok (intTrunc x)

end PyVal

/-- `Histogram_1d` (`statistics.py`, lines 96-128). -/
structure Histogram_1d where
  nvar : ℕ
  nbin : ℕ
  limits : ℝ × ℝ
  bin_width : ℝ
  counts : List (List ℕ)

/-- `Histogram_1d.__init__` (lines 112-117). -/
def Histogram_1d.init (nvar nbin : ℕ) (limits : ℝ × ℝ) : Histogram_1d :=
  ⟨nvar, nbin, limits, (limits.2 - limits.1) / nbin,
   List.replicate nvar (List.replicate (nbin + 2) 0)⟩

/-- Python negative indexing: `counts[ivar, -1]` addresses the last entry. -/
def pyIdx (n : ℤ) (len : ℕ) : ℕ := if n < 0 then (len + n).toNat else n.toNat

/-- `Histogram_1d.score` (`statistics.py`, lines 119-128): underflow bin 0
for `value < lo`, overflow bin `-1` (the last) for `value >= hi`, otherwise
`int((value - lo)/bin_width) + 1`; the `int()` conversion raises on `nan`. -/
def Histogram_1d.score (h : Histogram_1d) (ivar : ℕ) (value : PyVal) :
    Except StatError Histogram_1d :=
  let bi : Except StatError ℤ :=
    if value.lt h.limits.1 then .ok 0
    else if value.ge h.limits.2 then .ok (-1)
    else (PyVal.toInt ((value.sub h.limits.1).div h.bin_width)).map (· + 1)
  bi.map (fun n =>
    let row := h.counts.getD ivar []
    let j := pyIdx n row.length
    { h with counts := h.counts.set ivar (row.set j (row.getD j 0 + 1)) })

/-- The bin that claim C10 predicts for a non-`nan` value: underflow 0 for
`value < lo`, overflow `nbin+1` for `value ≥ hi`, otherwise
`1 + ⌊(value − lo)/bin_width⌋`. -/
def claimIndex (lo hi bw : ℝ) (nbin : ℕ) (v : PyVal) : ℕ :=
  match v with
  | PyVal.nan => 0
  | PyVal.inf => nbin + 1
  | PyVal.ninf => 0
  | PyVal.val x =>
    if x < lo then 0 else if hi ≤ x then nbin + 1
    else (1 + ⌊(x - lo) / bw⌋).toNat

end Statistics

/-! ## Claim theorems -/

/-- C7: for every collision, the scatter operation (scalar and vectorised)
returns `e_recoil = den_fac * energy * (1 - cos(θ/2)^2)` and
`e_new = energy - e_recoil`, so the pre-collision projectile energy equals
the sum of the post-collision projectile and recoil energies exactly. -/
theorem claim_C7 (prm : Scatter.Params) (proj : Scatter.Projectile) (p : ℝ)
    (dirp : V3) (enorm rnorm dirfac denfac eb pb : ℝ) (dirb dirpb : V3) :
    (Scatter.scatter prm proj p dirp).2.2 =
      prm.denfac proj.ispec * proj.e *
        (1 - Scatter.magic (proj.e / prm.enorm proj.ispec)
          (p / prm.rnorm proj.ispec) ^ 2) ∧
    (Scatter.scatter prm proj p dirp).1.e =
      proj.e - (Scatter.scatter prm proj p dirp).2.2 ∧
    (Scatter.scatter prm proj p dirp).1.e +
      (Scatter.scatter prm proj p dirp).2.2 = proj.e ∧
    (ScatterBulk.scatter enorm rnorm dirfac denfac eb dirb pb dirpb).2.2.2 =
      denfac * eb * (1 - Scatter.magic (eb / enorm) (pb / rnorm) ^ 2) ∧
    (ScatterBulk.scatter enorm rnorm dirfac denfac eb dirb pb dirpb).2.1 =
      eb - (ScatterBulk.scatter enorm rnorm dirfac denfac eb dirb pb dirpb).2.2.2 ∧
    (ScatterBulk.scatter enorm rnorm dirfac denfac eb dirb pb dirpb).2.1 +
      (ScatterBulk.scatter enorm rnorm dirfac denfac eb dirb pb dirpb).2.2.2 = eb := by
  refine ⟨rfl, rfl, ?_, rfl, rfl, ?_⟩
  · simp [Scatter.scatter, Scatter.scatterPost]
  · simp [ScatterBulk.scatter, ScatterBulk.scatterPost]

/-- C8: the electronic-stopping loss is
`min (k_lindhard * density * sqrt e * free_path) e`; under physical signs
it is non-negative, at most the current energy, and subtracting it cannot
drive the energy below zero. -/
theorem claim_C8 (fac density e fp : ℝ) (hfac : 0 ≤ fac) (hd : 0 ≤ density)
    (he : 0 ≤ e) (hfp : 0 ≤ fp) :
    Estop.eloss fac density e fp = min (fac * density * Real.sqrt e * fp) e ∧
    0 ≤ Estop.eloss fac density e fp ∧
    Estop.eloss fac density e fp ≤ e ∧
    0 ≤ e - Estop.eloss fac density e fp := by
  have hraw : 0 ≤ fac * density * Real.sqrt e * fp := by positivity
  have hmin : Estop.eloss fac density e fp
      = min (fac * density * Real.sqrt e * fp) e := by
    unfold Estop.eloss
    rcases le_or_lt (fac * density * Real.sqrt e * fp) e with hle | hlt
    · rw [if_neg (not_lt.mpr hle), min_eq_left hle]
    · rw [if_pos hlt, min_eq_right hlt.le]
  refine ⟨hmin, ?_, ?_, ?_⟩
  · rw [hmin]; exact le_min hraw he
  · rw [hmin]; exact min_le_right _ _
  · rw [hmin]; simp [min_le_right]

/-- Witness for C8 at `fac = 1`, `density = 1`, `e = 4`, `free_path = 1`:
the raw loss is `sqrt 4 = 2 ≤ 4`, so the returned loss is 2. -/
theorem claim_C8_witness :
    (0 : ℝ) ≤ 1 ∧ (0 : ℝ) ≤ 4 ∧
    Estop.eloss 1 1 4 1 = min (1 * 1 * Real.sqrt 4 * 1) 4 ∧
    Estop.eloss 1 1 4 1 = 2 := by
  have h := claim_C8 1 1 4 1 (by norm_num) (by norm_num) (by norm_num) (by norm_num)
  have hs : Real.sqrt 4 = 2 := by
    rw [show (4 : ℝ) = 2 ^ 2 by norm_num, Real.sqrt_sq (by norm_num)]
  refine ⟨by norm_num, by norm_num, h.1, ?_⟩
  rw [h.1, hs]; norm_num

/-- C6 (code bug): at `cos(θ/2) = 1` (the no-deflection limit) the raw
recoil direction is the zero vector.  The scalar `scatter`
(`scatter.py`, lines 196-200) replaces it by the incident direction, as the
claim states; the vectorised `scatter` (`numba_bulk/scatter_bulk.py`,
lines 202-203) has no such fallback and performs the division by the zero
norm, returning a non-unit junk vector. -/
theorem claim_C6_bug :
    (Scatter.scatterPost 1 1 1 100 ⟨0, 0, 1⟩ ⟨1, 0, 0⟩).2.1 = ⟨0, 0, 1⟩ ∧
    (Scatter.scatterPost 1 1 1 100 ⟨0, 0, 1⟩ ⟨1, 0, 0⟩).2.1.norm = 1 ∧
    (ScatterBulk.scatterPost 1 1 1 100 ⟨0, 0, 1⟩ ⟨1, 0, 0⟩).2.2.1 = V3.zero ∧
    (ScatterBulk.scatterPost 1 1 1 100 ⟨0, 0, 1⟩ ⟨1, 0, 0⟩).2.2.1.norm = 0 := by
  have hc : Real.sqrt (1 - (1 : ℝ) ^ 2) = 0 := by norm_num
  have hz : (V3.norm ⟨0, 0, 0⟩) = 0 := by simp [V3.norm]
  refine ⟨?_, ?_, ?_, ?_⟩
  · simp [Scatter.scatterPost, hc, V3.smul, V3.add, V3.sub, V3.sdiv, V3.norm]
  · simp [Scatter.scatterPost, hc, V3.smul, V3.add, V3.sub, V3.sdiv, V3.norm]
  · simp [ScatterBulk.scatterPost, hc, V3.smul, V3.add, V3.sub, V3.sdiv,
      V3.norm, V3.zero]
  · simp [ScatterBulk.scatterPost, hc, V3.smul, V3.add, V3.sub, V3.sdiv,
      V3.norm, V3.zero]

/-- C5 counterexample: a `Moment_1d` with one variable and no scored
samples has `count = [0]`, yet the `central_moments` query returns a value
(`ok`), not the `EMPTY_POPULATION` error the claim requires; the
spec-modelled query is shown alongside for contrast. -/
theorem claim_C5_cex :
    Statistics.Moment_1d.init 1 4 =
      Except.ok ⟨1, 4, [List.replicate 9 0]⟩ ∧
    Statistics.Moment_1d.count ⟨1, 4, [List.replicate 9 0]⟩ = [0] ∧
    Statistics.Moment_1d.central_momentsE ⟨1, 4, [List.replicate 9 0]⟩ ≠
      Except.error Statistics.StatError.emptyPopulation ∧
    Statistics.Moment_1d.central_momentsSpec ⟨1, 4, [List.replicate 9 0]⟩ =
      Except.error Statistics.StatError.emptyPopulation := by
  refine ⟨?_, ?_, ?_, ?_⟩
  · simp [Statistics.Moment_1d.init]
  · simp [Statistics.Moment_1d.count]
  · simp [Statistics.Moment_1d.central_momentsE]
  · simp [Statistics.Moment_1d.central_momentsSpec, Statistics.Moment_1d.count]

/-- C5 amended: querying the statistics of a species with zero scored
samples does not fail; `print_results` reports the
"No atoms stopped inside the target." line for that species (and the
`central_moments`/`mean` values it computed along the way are junk from
the `0/0` divisions, never an error). -/
theorem claim_C5_thm :
    Statistics.print_results ⟨1, 4, [List.replicate 9 0]⟩ =
      [Statistics.Report.noAtoms 0] := by
  simp [Statistics.print_results, Statistics.Moment_1d.count, List.range_succ]

/-- C1 (code bug): the bulk drivers' loop exit test
`if not valid_ions.any(): break` is wrong when the active set is exactly
`{0}`: `np.ndarray.any()` of the index array `[0]` is `False`, so the loop
stops although ion 0 is active (energy 10 > E_min = 5 and inside).  A
one-ion batch is therefore returned entirely unsimulated, for any rng
stream and any fuel, while a batch whose active ion has a nonzero index
does iterate. -/
theorem claim_C1_bug :
    TrajectoryBulk.validIons 5 ⟨[10], [V3.zero], [⟨0, 0, 1⟩], [true]⟩ = [0] ∧
    TrajectoryBulk.validIons 5 ⟨[10], [V3.zero], [⟨0, 0, 1⟩], [true]⟩ ≠ [] ∧
    TrajectoryBulk.stepCond 5 ⟨[10], [V3.zero], [⟨0, 0, 1⟩], [true]⟩ = false ∧
    (∀ (rngs : ℕ → List (ℝ × ℝ)) (fuel k : ℕ),
      TrajectoryBulk.trajRun ⟨5, 0, 4000, 1, 1, 0, 1, 1, 1, 1, 1⟩ rngs fuel k
          ⟨[10], [V3.zero], [⟨0, 0, 1⟩], [true]⟩ =
        ⟨[10], [V3.zero], [⟨0, 0, 1⟩], [true]⟩) ∧
    TrajectoryBulk.validIons 5
      ⟨[0, 10], [V3.zero, V3.zero], [⟨0, 0, 1⟩, ⟨0, 0, 1⟩], [true, true]⟩ = [1] ∧
    TrajectoryBulk.stepCond 5
      ⟨[0, 10], [V3.zero, V3.zero], [⟨0, 0, 1⟩, ⟨0, 0, 1⟩], [true, true]⟩ = true := by
  have hv : TrajectoryBulk.validIons 5 ⟨[10], [V3.zero], [⟨0, 0, 1⟩], [true]⟩ = [0] := by
    simp [TrajectoryBulk.validIons, List.range_succ]
    norm_num
  have hs : TrajectoryBulk.stepCond 5 ⟨[10], [V3.zero], [⟨0, 0, 1⟩], [true]⟩ = false := by
    simp [TrajectoryBulk.stepCond, hv]
  refine ⟨hv, by rw [hv]; simp, hs, ?_, ?_, ?_⟩
  · intro rngs fuel k
    cases fuel with
    | zero => rfl
    | succ n => simp [TrajectoryBulk.trajRun, hs]
  · simp [TrajectoryBulk.validIons, List.range_succ]
    norm_num
  · have hv2 : TrajectoryBulk.validIons 5
        ⟨[0, 10], [V3.zero, V3.zero], [⟨0, 0, 1⟩, ⟨0, 0, 1⟩], [true, true]⟩ = [1] := by
      simp [TrajectoryBulk.validIons, List.range_succ]
      norm_num
    simp [TrajectoryBulk.stepCond, hv2]

/-- Increment of a single bin `j` of species `ivar`, used to phrase C10:
"exactly one bin is incremented". -/
def Statistics.incCounts (h : Statistics.Histogram_1d) (ivar j : ℕ) :
    Statistics.Histogram_1d :=
  let row := h.counts.getD ivar []
  { h with counts := h.counts.set ivar (row.set j (row.getD j 0 + 1)) }

/-- C10: `Histogram_1d.score` is total exactly on non-`nan` inputs: a `nan`
value raises an uncaught `ValueError` (from `int(nan)`), while every finite
value and both infinities increment exactly one bin — the underflow bin 0
for `value < lo`, the overflow bin `nbin+1` for `value ≥ hi`, and bin
`1 + ⌊(value − lo)/bin_width⌋` otherwise. -/
theorem claim_C10 (h : Statistics.Histogram_1d) (ivar : ℕ)
    (hlim : h.limits.1 < h.limits.2) (hbin : 1 ≤ h.nbin)
    (hw : h.bin_width = (h.limits.2 - h.limits.1) / h.nbin)
    (hrow : (h.counts.getD ivar []).length = h.nbin + 2) :
    h.score ivar Statistics.PyVal.nan =
      Except.error Statistics.StatError.valueError ∧
    ∀ v : Statistics.PyVal, v ≠ Statistics.PyVal.nan →
      Statistics.claimIndex h.limits.1 h.limits.2 h.bin_width h.nbin v < h.nbin + 2 ∧
      h.score ivar v = Except.ok (Statistics.incCounts h ivar
        (Statistics.claimIndex h.limits.1 h.limits.2 h.bin_width h.nbin v)) := by
  simp only [Statistics.incCounts]
  have hnc : (0 : ℝ) < h.nbin := by
    have : (1 : ℝ) ≤ (h.nbin : ℝ) := by exact_mod_cast hbin
    linarith
  have hbw : 0 < h.bin_width := by
    rw [hw]; exact div_pos (by linarith) hnc
  have hpy1 : Statistics.pyIdx (-1) (h.counts.getD ivar []).length = h.nbin + 1 := by
    rw [hrow]; simp only [Statistics.pyIdx]
    rw [if_pos (by omega)]; omega
  constructor
  · simp [Statistics.Histogram_1d.score, Statistics.PyVal.lt, Statistics.PyVal.ge,
      Statistics.PyVal.sub, Statistics.PyVal.div, Statistics.PyVal.toInt,
      Except.map]
  · intro v hv
    match v with
    | Statistics.PyVal.nan => exact absurd rfl hv
    | Statistics.PyVal.inf =>
      refine ⟨by simp only [Statistics.claimIndex]; omega, ?_⟩
      simp [-List.getD_eq_getElem?_getD, Statistics.Histogram_1d.score,
        Statistics.PyVal.lt, Statistics.PyVal.ge, Statistics.claimIndex,
        Except.map, hpy1]
    | Statistics.PyVal.ninf =>
      refine ⟨by simp only [Statistics.claimIndex]; omega, ?_⟩
      simp [-List.getD_eq_getElem?_getD, Statistics.Histogram_1d.score,
        Statistics.PyVal.lt, Statistics.PyVal.ge, Statistics.claimIndex,
        Except.map, Statistics.pyIdx]
    | Statistics.PyVal.val x =>
      rcases lt_or_le x h.limits.1 with hxlo | hxlo
      · have hcl : Statistics.claimIndex h.limits.1 h.limits.2 h.bin_width h.nbin
            (Statistics.PyVal.val x) = 0 := by
          simp [Statistics.claimIndex, hxlo]
        refine ⟨by rw [hcl]; omega, ?_⟩
        simp [-List.getD_eq_getElem?_getD, Statistics.Histogram_1d.score,
          Statistics.PyVal.lt, Statistics.PyVal.ge, Except.map,
          Statistics.pyIdx, hcl, hxlo]
      · have hxlo' : ¬ x < h.limits.1 := not_lt.mpr hxlo
        rcases le_or_lt h.limits.2 x with hxhi | hxhi
        · have hcl : Statistics.claimIndex h.limits.1 h.limits.2 h.bin_width h.nbin
              (Statistics.PyVal.val x) = h.nbin + 1 := by
            simp [Statistics.claimIndex, hxlo', hxhi]
          refine ⟨by rw [hcl]; omega, ?_⟩
          simp [-List.getD_eq_getElem?_getD, Statistics.Histogram_1d.score,
            Statistics.PyVal.lt, Statistics.PyVal.ge, Except.map, hpy1, hcl,
            hxlo', hxhi]
        · have hxhi' : ¬ h.limits.2 ≤ x := not_le.mpr hxhi
          have h0 : (0 : ℝ) ≤ (x - h.limits.1) / h.bin_width :=
            div_nonneg (by linarith) hbw.le
          have hfl0 : 0 ≤ ⌊(x - h.limits.1) / h.bin_width⌋ := Int.floor_nonneg.mpr h0
          have hflub : ⌊(x - h.limits.1) / h.bin_width⌋ < h.nbin := by
            have hlt : (x - h.limits.1) / h.bin_width < h.nbin := by
              rw [div_lt_iff₀ hbw, hw]
              have hne : (h.nbin : ℝ) ≠ 0 := ne_of_gt hnc
              field_simp
              linarith
            exact_mod_cast Int.floor_lt.mpr (by exact_mod_cast hlt)
          have hidx : Statistics.claimIndex h.limits.1 h.limits.2 h.bin_width h.nbin
              (Statistics.PyVal.val x)
              = (1 + ⌊(x - h.limits.1) / h.bin_width⌋).toNat := by
            simp [Statistics.claimIndex, hxlo', hxhi']
          have hpy2 : Statistics.pyIdx (⌊(x - h.limits.1) / h.bin_width⌋ + 1)
              (h.counts.getD ivar []).length
              = (1 + ⌊(x - h.limits.1) / h.bin_width⌋).toNat := by
            simp only [Statistics.pyIdx]
            rw [if_neg (by omega)]
            omega
          refine ⟨by rw [hidx]; omega, ?_⟩
          simp [-List.getD_eq_getElem?_getD, Statistics.Histogram_1d.score,
            Statistics.PyVal.lt, Statistics.PyVal.ge, Statistics.PyVal.sub,
            Statistics.PyVal.div, Statistics.PyVal.toInt,
            Statistics.PyVal.intTrunc, Except.map, hxlo', hxhi',
            ne_of_gt hbw, h0, hpy2, hidx]

/-- Witness for C10: a fresh 5-bin histogram over `[0, 10)` scores the
value 3 into bin `1 + ⌊3/2⌋ = 2` and errors on `nan`. -/
theorem claim_C10_witness :
    (Statistics.Histogram_1d.init 1 5 (0, 10)).limits.1 <
      (Statistics.Histogram_1d.init 1 5 (0, 10)).limits.2 ∧
    1 ≤ (Statistics.Histogram_1d.init 1 5 (0, 10)).nbin ∧
    (Statistics.Histogram_1d.init 1 5 (0, 10)).score 0 Statistics.PyVal.nan =
      Except.error Statistics.StatError.valueError ∧
    (Statistics.Histogram_1d.init 1 5 (0, 10)).score 0 (Statistics.PyVal.val 3) =
      Except.ok (Statistics.incCounts (Statistics.Histogram_1d.init 1 5 (0, 10)) 0 2) := by
  have h := claim_C10 (Statistics.Histogram_1d.init 1 5 (0, 10)) 0
    (by norm_num [Statistics.Histogram_1d.init])
    (by norm_num [Statistics.Histogram_1d.init]) rfl
    (by simp [Statistics.Histogram_1d.init])
  have hidx : Statistics.claimIndex
      (Statistics.Histogram_1d.init 1 5 (0, 10)).limits.1
      (Statistics.Histogram_1d.init 1 5 (0, 10)).limits.2
      (Statistics.Histogram_1d.init 1 5 (0, 10)).bin_width
      (Statistics.Histogram_1d.init 1 5 (0, 10)).nbin
      (Statistics.PyVal.val 3) = 2 := by
    norm_num [Statistics.claimIndex, Statistics.Histogram_1d.init]
    rfl
  have h3 := (h.2 (Statistics.PyVal.val 3) (by intro hc; exact absurd hc (by simp))).2
  rw [hidx] at h3
  exact ⟨by norm_num [Statistics.Histogram_1d.init],
    by norm_num [Statistics.Histogram_1d.init], h.1, h3⟩

/-- `V3.sdiv` by 1 is the identity. -/
theorem V3.sdiv_one (v : V3) : v.sdiv 1 = v := by
  simp [V3.sdiv]

/-- Core algebra of the perpendicular-basis construction: for a unit
triple `(dk, di, dj)` whose `k`-component squared is at most 1/3 and a
unit azimuth pair `(cf, sf)`, the constructed vector is a unit vector
orthogonal to the direction, and `sin α = sqrt(di² + dj²) ≥ sqrt(2/3)`. -/
theorem dirp_core (dk di dj cf sf : ℝ) (h1 : dk ^ 2 + di ^ 2 + dj ^ 2 = 1)
    (hk3 : dk ^ 2 ≤ 1 / 3) (h2 : cf ^ 2 + sf ^ 2 = 1) :
    Real.sqrt (2 / 3) ≤ Real.sqrt (di ^ 2 + dj ^ 2) ∧
    0 < Real.sqrt (di ^ 2 + dj ^ 2) ∧
    (-cf * Real.sqrt (di ^ 2 + dj ^ 2)) * dk +
      (cf * dk * (di / Real.sqrt (di ^ 2 + dj ^ 2)) -
        sf * (dj / Real.sqrt (di ^ 2 + dj ^ 2))) * di +
      (cf * dk * (dj / Real.sqrt (di ^ 2 + dj ^ 2)) +
        sf * (di / Real.sqrt (di ^ 2 + dj ^ 2))) * dj = 0 ∧
    (cf * dk * (di / Real.sqrt (di ^ 2 + dj ^ 2)) -
        sf * (dj / Real.sqrt (di ^ 2 + dj ^ 2))) ^ 2 +
      (cf * dk * (dj / Real.sqrt (di ^ 2 + dj ^ 2)) +
        sf * (di / Real.sqrt (di ^ 2 + dj ^ 2))) ^ 2 +
      (-cf * Real.sqrt (di ^ 2 + dj ^ 2)) ^ 2 = 1 := by
  have hsum : di ^ 2 + dj ^ 2 = 1 - dk ^ 2 := by linarith
  have h23 : (2 : ℝ) / 3 ≤ di ^ 2 + dj ^ 2 := by rw [hsum]; linarith
  have hpos : (0 : ℝ) < di ^ 2 + dj ^ 2 := by linarith
  have hsa2 : Real.sqrt (di ^ 2 + dj ^ 2) ^ 2 = di ^ 2 + dj ^ 2 :=
    Real.sq_sqrt hpos.le
  have hsa_pos : 0 < Real.sqrt (di ^ 2 + dj ^ 2) := Real.sqrt_pos.mpr hpos
  have hsa_ne : Real.sqrt (di ^ 2 + dj ^ 2) ≠ 0 := ne_of_gt hsa_pos
  refine ⟨Real.sqrt_le_sqrt h23, hsa_pos, ?_, ?_⟩
  · field_simp
    linear_combination (-(cf * dk)) * hsa2
  · field_simp
    linear_combination (cf ^ 2 * (di ^ 2 + dj ^ 2)) * hsa2 +
      ((di ^ 2 + dj ^ 2) * cf ^ 2) * h1 + (di ^ 2 + dj ^ 2) * h2

/-- C9: for every unit-norm projectile direction, the impact-direction
vector `dirp` returned by `get_recoil_position` is a unit vector
perpendicular to the direction, and the basis choice
`k = argmin |direction_component|` guarantees
`sin α = sqrt(dir[i]² + dir[j]²) ≥ sqrt(2/3) > 0`, so the divisions by
`sin α` and by `‖dirp‖` are well-defined. -/
theorem claim_C9 (mfp pmax : ℝ) (pos dir : V3) (u1 u2 : ℝ)
    (hdir : dir.x ^ 2 + dir.y ^ 2 + dir.z ^ 2 = 1) :
    Real.sqrt (2 / 3) ≤ SelectRecoil.sinAlpha dir ∧
    0 < SelectRecoil.sinAlpha dir ∧
    (SelectRecoil.dirpRaw dir (Real.cos (2 * Real.pi * u2))
      (Real.sin (2 * Real.pi * u2))).norm = 1 ∧
    (SelectRecoil.get_recoil_position mfp pmax pos dir u1 u2).2.2.1 =
      SelectRecoil.dirpRaw dir (Real.cos (2 * Real.pi * u2))
        (Real.sin (2 * Real.pi * u2)) ∧
    V3.dot (SelectRecoil.get_recoil_position mfp pmax pos dir u1 u2).2.2.1 dir
      = 0 ∧
    (SelectRecoil.get_recoil_position mfp pmax pos dir u1 u2).2.2.1.norm = 1 := by
  set cf := Real.cos (2 * Real.pi * u2) with hcf
  set sf := Real.sin (2 * Real.pi * u2) with hsf
  have h2 : cf ^ 2 + sf ^ 2 = 1 := by
    have := Real.sin_sq_add_cos_sq (2 * Real.pi * u2)
    rw [hcf, hsf]; linarith
  have main : Real.sqrt (2 / 3) ≤ SelectRecoil.sinAlpha dir ∧
      0 < SelectRecoil.sinAlpha dir ∧
      (SelectRecoil.dirpRaw dir cf sf).norm = 1 ∧
      V3.dot (SelectRecoil.dirpRaw dir cf sf) dir = 0 := by
    by_cases hb1 : |dir.x| ≤ |dir.y| ∧ |dir.x| ≤ |dir.z|
    · have hargm : SelectRecoil.argmin3 dir = 0 := by
        simp [SelectRecoil.argmin3, hb1]
      have hxy : dir.x ^ 2 ≤ dir.y ^ 2 := by
        nlinarith [sq_abs dir.x, sq_abs dir.y, abs_nonneg dir.x,
          mul_self_le_mul_self (abs_nonneg dir.x) hb1.1]
      have hxz : dir.x ^ 2 ≤ dir.z ^ 2 := by
        nlinarith [sq_abs dir.x, sq_abs dir.z, abs_nonneg dir.x,
          mul_self_le_mul_self (abs_nonneg dir.x) hb1.2]
      have hk3 : dir.x ^ 2 ≤ 1 / 3 := by linarith
      obtain ⟨hm, hp, hd, hn⟩ :=
        dirp_core dir.x dir.y dir.z cf sf (by linarith) hk3 h2
      refine ⟨?_, ?_, ?_, ?_⟩
      · simp only [SelectRecoil.sinAlpha, hargm]; exact hm
      · simp only [SelectRecoil.sinAlpha, hargm]; exact hp
      · simp only [SelectRecoil.dirpRaw, hargm, V3.norm]
        rw [show ∀ a b c : ℝ, a ^ 2 + b ^ 2 + c ^ 2 = b ^ 2 + c ^ 2 + a ^ 2 from
          fun a b c => by ring]
        rw [hn, Real.sqrt_one]
      · simp only [SelectRecoil.dirpRaw, hargm, V3.dot]
        linear_combination hd
    · by_cases hb2 : |dir.y| ≤ |dir.z|
      · have hargm : SelectRecoil.argmin3 dir = 1 := by
          simp [SelectRecoil.argmin3, hb1, hb2]
        have hyx : |dir.y| ≤ |dir.x| := by
          rcases le_or_lt |dir.x| |dir.y| with hxy | hxy
          · exfalso
            rcases not_and_or.mp hb1 with hc | hc
            · exact hc hxy
            · exact hc (le_trans hxy hb2)
          · exact hxy.le
        have hy2x : dir.y ^ 2 ≤ dir.x ^ 2 := by
          nlinarith [sq_abs dir.x, sq_abs dir.y, abs_nonneg dir.y,
            mul_self_le_mul_self (abs_nonneg dir.y) hyx]
        have hy2z : dir.y ^ 2 ≤ dir.z ^ 2 := by
          nlinarith [sq_abs dir.y, sq_abs dir.z, abs_nonneg dir.y,
            mul_self_le_mul_self (abs_nonneg dir.y) hb2]
        have hk3 : dir.y ^ 2 ≤ 1 / 3 := by linarith
        obtain ⟨hm, hp, hd, hn⟩ :=
          dirp_core dir.y dir.z dir.x cf sf (by linarith) hk3 h2
        refine ⟨?_, ?_, ?_, ?_⟩
        · simp only [SelectRecoil.sinAlpha, hargm]; exact hm
        · simp only [SelectRecoil.sinAlpha, hargm]; exact hp
        · simp only [SelectRecoil.dirpRaw, hargm, V3.norm]
          rw [show ∀ a b c : ℝ, a ^ 2 + b ^ 2 + c ^ 2 = c ^ 2 + a ^ 2 + b ^ 2 from
            fun a b c => by ring]
          rw [hn, Real.sqrt_one]
        · simp only [SelectRecoil.dirpRaw, hargm, V3.dot]
          linear_combination hd
      · have hargm : SelectRecoil.argmin3 dir = 2 := by
          simp [SelectRecoil.argmin3, hb1, hb2]
        have hzy : |dir.z| ≤ |dir.y| := (not_le.mp hb2).le
        have hzx : |dir.z| ≤ |dir.x| := by
          rcases not_and_or.mp hb1 with hc | hc
          · exact le_trans hzy (not_le.mp hc).le
          · exact (not_le.mp hc).le
        have hz2x : dir.z ^ 2 ≤ dir.x ^ 2 := by
          nlinarith [sq_abs dir.x, sq_abs dir.z, abs_nonneg dir.z,
            mul_self_le_mul_self (abs_nonneg dir.z) hzx]
        have hz2y : dir.z ^ 2 ≤ dir.y ^ 2 := by
          nlinarith [sq_abs dir.y, sq_abs dir.z, abs_nonneg dir.z,
            mul_self_le_mul_self (abs_nonneg dir.z) hzy]
        have hk3 : dir.z ^ 2 ≤ 1 / 3 := by linarith
        obtain ⟨hm, hp, hd, hn⟩ :=
          dirp_core dir.z dir.x dir.y cf sf (by linarith) hk3 h2
        have hsa : SelectRecoil.sinAlpha dir = Real.sqrt (dir.x ^ 2 + dir.y ^ 2) := by
          simp only [SelectRecoil.sinAlpha, hargm]
        refine ⟨?_, ?_, ?_, ?_⟩
        · rw [hsa]; exact hm
        · rw [hsa]; exact hp
        · have hdr : SelectRecoil.dirpRaw dir cf sf =
              ⟨cf * dir.z * (dir.x / Real.sqrt (dir.x ^ 2 + dir.y ^ 2)) -
                 sf * (dir.y / Real.sqrt (dir.x ^ 2 + dir.y ^ 2)),
               cf * dir.z * (dir.y / Real.sqrt (dir.x ^ 2 + dir.y ^ 2)) +
                 sf * (dir.x / Real.sqrt (dir.x ^ 2 + dir.y ^ 2)),
               -cf * Real.sqrt (dir.x ^ 2 + dir.y ^ 2)⟩ := by
            simp only [SelectRecoil.dirpRaw, hargm]
          rw [hdr]
          simp only [V3.norm]
          rw [hn, Real.sqrt_one]
        · have hdr : SelectRecoil.dirpRaw dir cf sf =
              ⟨cf * dir.z * (dir.x / Real.sqrt (dir.x ^ 2 + dir.y ^ 2)) -
                 sf * (dir.y / Real.sqrt (dir.x ^ 2 + dir.y ^ 2)),
               cf * dir.z * (dir.y / Real.sqrt (dir.x ^ 2 + dir.y ^ 2)) +
                 sf * (dir.x / Real.sqrt (dir.x ^ 2 + dir.y ^ 2)),
               -cf * Real.sqrt (dir.x ^ 2 + dir.y ^ 2)⟩ := by
            simp only [SelectRecoil.dirpRaw, hargm]
          rw [hdr]
          simp only [V3.dot]
          linear_combination hd
  obtain ⟨hm, hp, hnraw, hdraw⟩ := main
  have hdirp : (SelectRecoil.get_recoil_position mfp pmax pos dir u1 u2).2.2.1 =
      SelectRecoil.dirpRaw dir cf sf := by
    simp only [SelectRecoil.get_recoil_position]
    rw [hnraw, V3.sdiv_one]
  exact ⟨hm, hp, hnraw, hdirp, by rw [hdirp]; exact hdraw, by rw [hdirp]; exact hnraw⟩

/-- Witness for C9 at the unit direction `(0, 0, 1)` with both uniform
draws equal to 0. -/
theorem claim_C9_witness :
    ((0 : ℝ) ^ 2 + (0 : ℝ) ^ 2 + (1 : ℝ) ^ 2 = 1) ∧
    (Real.sqrt (2 / 3) ≤ SelectRecoil.sinAlpha ⟨0, 0, 1⟩ ∧
     0 < SelectRecoil.sinAlpha ⟨0, 0, 1⟩ ∧
     (SelectRecoil.dirpRaw ⟨0, 0, 1⟩ (Real.cos (2 * Real.pi * 0))
       (Real.sin (2 * Real.pi * 0))).norm = 1 ∧
     (SelectRecoil.get_recoil_position 1 1 V3.zero ⟨0, 0, 1⟩ 0 0).2.2.1 =
       SelectRecoil.dirpRaw ⟨0, 0, 1⟩ (Real.cos (2 * Real.pi * 0))
         (Real.sin (2 * Real.pi * 0)) ∧
     V3.dot (SelectRecoil.get_recoil_position 1 1 V3.zero ⟨0, 0, 1⟩ 0 0).2.2.1
       ⟨0, 0, 1⟩ = 0 ∧
     (SelectRecoil.get_recoil_position 1 1 V3.zero ⟨0, 0, 1⟩ 0 0).2.2.1.norm = 1) :=
  ⟨by norm_num, claim_C9 1 1 V3.zero ⟨0, 0, 1⟩ 0 0 (by norm_num)⟩

/-! ### Rational bounds on the exponentials appearing in `magic 1 0`

The Newton-corrected apsis at `(e, p) = (1, 0)` and the subsequent
`rho`-expression are bounded by interval arithmetic over the four ZBL
exponentials, evaluated at the rational points `38/63` (the initial apsis
estimate), `0.5745` and `0.5750` (a bracket of the corrected apsis). -/

/-- Degree-9 Taylor bound for `exp (-x)` on `[0, 1]`, from
`Real.exp_bound`. -/
theorem exp_taylor9 (x : ℝ) (hx0 : 0 ≤ x) (hx1 : x ≤ 1) :
    |Real.exp (-x) - ∑ m ∈ Finset.range 9, (-x) ^ m / m.factorial| ≤
      x ^ 9 * (10 / 3265920) := by
  have habs : |(-x : ℝ)| = x := by rw [abs_neg, abs_of_nonneg hx0]
  have h := Real.exp_bound (x := -x) (by rw [habs]; exact hx1) (n := 9) (by norm_num)
  rw [habs] at h
  convert h using 2
  norm_num [Nat.factorial]

/-- Turn the Taylor bound into a rational two-sided bracket. -/
theorem exp_bracket (x lo hi : ℝ) (hx0 : 0 ≤ x) (hx1 : x ≤ 1)
    (hlo : lo ≤ (∑ m ∈ Finset.range 9, (-x) ^ m / m.factorial)
      - x ^ 9 * (10 / 3265920))
    (hhi : (∑ m ∈ Finset.range 9, (-x) ^ m / m.factorial)
      + x ^ 9 * (10 / 3265920) ≤ hi) :
    lo ≤ Real.exp (-x) ∧ Real.exp (-x) ≤ hi := by
  have h := abs_le.mp (exp_taylor9 x hx0 hx1)
  constructor <;> linarith [h.1, h.2]

/-- Squares a bracket for `exp (-x)` into one for `exp (-(2x))`. -/
theorem exp_bracket_sq (x a b lo hi : ℝ) (ha : 0 ≤ a)
    (h1 : a ≤ Real.exp (-x)) (h2 : Real.exp (-x) ≤ b)
    (hlo : lo ≤ a ^ 2) (hhi : b ^ 2 ≤ hi) :
    lo ≤ Real.exp (-(2 * x)) ∧ Real.exp (-(2 * x)) ≤ hi := by
  have he : Real.exp (-(2 * x)) = Real.exp (-x) * Real.exp (-x) := by
    rw [← Real.exp_add]; ring_nf
  constructor
  · rw [he]; nlinarith
  · rw [he]; nlinarith [Real.exp_pos (-x)]

/-- Degree-7 Taylor bound for `exp (-x)` on `[0, 1]`. -/
theorem exp_taylor7 (x : ℝ) (hx0 : 0 ≤ x) (hx1 : x ≤ 1) :
    |Real.exp (-x) - ∑ m ∈ Finset.range 7, (-x) ^ m / m.factorial| ≤
      x ^ 7 * (8 / 35280) := by
  have habs : |(-x : ℝ)| = x := by rw [abs_neg, abs_of_nonneg hx0]
  have h := Real.exp_bound (x := -x) (by rw [habs]; exact hx1) (n := 7) (by norm_num)
  rw [habs] at h
  convert h using 2
  norm_num [Nat.factorial]

/-- Turn the degree-7 Taylor bound into a rational two-sided bracket. -/
theorem exp_bracket7 (x lo hi : ℝ) (hx0 : 0 ≤ x) (hx1 : x ≤ 1)
    (hlo : lo ≤ (∑ m ∈ Finset.range 7, (-x) ^ m / m.factorial)
      - x ^ 7 * (8 / 35280))
    (hhi : (∑ m ∈ Finset.range 7, (-x) ^ m / m.factorial)
      + x ^ 7 * (8 / 35280) ≤ hi) :
    lo ≤ Real.exp (-x) ∧ Real.exp (-x) ≤ hi := by
  have h := abs_le.mp (exp_taylor7 x hx0 hx1)
  constructor <;> linarith [h.1, h.2]

/-- `exp(-B2 * 38/63) ∈ [0.56641, 0.56649]`. -/
theorem exp_e2 : (0.56641 : ℝ) ≤ Real.exp (-Scatter.B2 * (38 / 63)) ∧
    Real.exp (-Scatter.B2 * (38 / 63)) ≤ 0.56649 := by
  have harg : -Scatter.B2 * (38 / 63 : ℝ) = -(1790351 / 3150000) := by
    norm_num [Scatter.B2]
  rw [harg]
  exact exp_bracket7 _ _ _ (by norm_num) (by norm_num)
    (by norm_num [Finset.sum_range_succ, Nat.factorial])
    (by norm_num [Finset.sum_range_succ, Nat.factorial])

/-- `exp(-B3 * 38 / 63) ∈ [0.78421, 0.78430]`. -/
theorem exp_e3 : (0.78421 : ℝ) ≤ Real.exp (-Scatter.B3 * (38 / 63)) ∧
    Real.exp (-Scatter.B3 * (38 / 63)) ≤ 0.78430 := by
  have harg : -Scatter.B3 * (38 / 63) = -(25517 / 105000) := by
    norm_num [Scatter.B3]
  rw [harg]
  exact exp_bracket7 _ _ _ (by norm_num) (by norm_num)
    (by norm_num [Finset.sum_range_succ, Nat.factorial])
    (by norm_num [Finset.sum_range_succ, Nat.factorial])

/-- `exp(-B4 * 38 / 63) ∈ [0.88545, 0.88553]`. -/
theorem exp_e4 : (0.88545 : ℝ) ≤ Real.exp (-Scatter.B4 * (38 / 63)) ∧
    Real.exp (-Scatter.B4 * (38 / 63)) ≤ 0.88553 := by
  have harg : -Scatter.B4 * (38 / 63) = -(191539 / 1575000) := by
    norm_num [Scatter.B4]
  rw [harg]
  exact exp_bracket7 _ _ _ (by norm_num) (by norm_num)
    (by norm_num [Finset.sum_range_succ, Nat.factorial])
    (by norm_num [Finset.sum_range_succ, Nat.factorial])

/-- `exp(-B2 * 0.5745) ∈ [0.58192, 0.58201]`. -/
theorem exp_a2 : (0.58192 : ℝ) ≤ Real.exp (-Scatter.B2 * (0.5745 : ℝ)) ∧
    Real.exp (-Scatter.B2 * (0.5745 : ℝ)) ≤ 0.58201 := by
  have harg : -Scatter.B2 * (0.5745 : ℝ) = -(108269121 / 200000000) := by
    norm_num [Scatter.B2]
  rw [harg]
  exact exp_bracket7 _ _ _ (by norm_num) (by norm_num)
    (by norm_num [Finset.sum_range_succ, Nat.factorial])
    (by norm_num [Finset.sum_range_succ, Nat.factorial])

/-- `exp(-B3 * 0.5745) ∈ [0.79332, 0.79341]`. -/
theorem exp_a3 : (0.79332 : ℝ) ≤ Real.exp (-Scatter.B3 * (0.5745 : ℝ)) ∧
    Real.exp (-Scatter.B3 * (0.5745 : ℝ)) ≤ 0.79341 := by
  have harg : -Scatter.B3 * (0.5745 : ℝ) = -(4629321 / 20000000) := by
    norm_num [Scatter.B3]
  rw [harg]
  exact exp_bracket7 _ _ _ (by norm_num) (by norm_num)
    (by norm_num [Finset.sum_range_succ, Nat.factorial])
    (by norm_num [Finset.sum_range_succ, Nat.factorial])

/-- `exp(-B4 * 0.5745) ∈ [0.89058, 0.89067]`. -/
theorem exp_a4 : (0.89058 : ℝ) ≤ Real.exp (-Scatter.B4 * (0.5745 : ℝ)) ∧
    Real.exp (-Scatter.B4 * (0.5745 : ℝ)) ≤ 0.89067 := by
  have harg : -Scatter.B4 * (0.5745 : ℝ) = -(11583069 / 100000000) := by
    norm_num [Scatter.B4]
  rw [harg]
  exact exp_bracket7 _ _ _ (by norm_num) (by norm_num)
    (by norm_num [Finset.sum_range_succ, Nat.factorial])
    (by norm_num [Finset.sum_range_succ, Nat.factorial])

/-- `exp(-B2 * 0.5750) ∈ [0.58164, 0.58173]`. -/
theorem exp_b2 : (0.58164 : ℝ) ≤ Real.exp (-Scatter.B2 * (0.5750 : ℝ)) ∧
    Real.exp (-Scatter.B2 * (0.5750 : ℝ)) ≤ 0.58173 := by
  have harg : -Scatter.B2 * (0.5750 : ℝ) = -(2167267 / 4000000) := by
    norm_num [Scatter.B2]
  rw [harg]
  exact exp_bracket7 _ _ _ (by norm_num) (by norm_num)
    (by norm_num [Finset.sum_range_succ, Nat.factorial])
    (by norm_num [Finset.sum_range_succ, Nat.factorial])

/-- `exp(-B3 * 0.5750) ∈ [0.79316, 0.79325]`. -/
theorem exp_b3 : (0.79316 : ℝ) ≤ Real.exp (-Scatter.B3 * (0.5750 : ℝ)) ∧
    Real.exp (-Scatter.B3 * (0.5750 : ℝ)) ≤ 0.79325 := by
  have harg : -Scatter.B3 * (0.5750 : ℝ) = -(92667 / 400000) := by
    norm_num [Scatter.B3]
  rw [harg]
  exact exp_bracket7 _ _ _ (by norm_num) (by norm_num)
    (by norm_num [Finset.sum_range_succ, Nat.factorial])
    (by norm_num [Finset.sum_range_succ, Nat.factorial])

/-- `exp(-B4 * 0.5750) ∈ [0.89049, 0.89058]`. -/
theorem exp_b4 : (0.89049 : ℝ) ≤ Real.exp (-Scatter.B4 * (0.5750 : ℝ)) ∧
    Real.exp (-Scatter.B4 * (0.5750 : ℝ)) ≤ 0.89058 := by
  have harg : -Scatter.B4 * (0.5750 : ℝ) = -(231863 / 2000000) := by
    norm_num [Scatter.B4]
  rw [harg]
  exact exp_bracket7 _ _ _ (by norm_num) (by norm_num)
    (by norm_num [Finset.sum_range_succ, Nat.factorial])
    (by norm_num [Finset.sum_range_succ, Nat.factorial])

/-- `exp(-B1 * 38 / 63) ∈ [0.14512, 0.14517]`, via the half
argument. -/
theorem exp_e1 : (0.14512 : ℝ) ≤ Real.exp (-Scatter.B1 * (38 / 63)) ∧
    Real.exp (-Scatter.B1 * (38 / 63)) ≤ 0.14517 := by
  have harg : -Scatter.B1 * (38 / 63) = -(2 * (101327 / 105000)) := by
    norm_num [Scatter.B1]
  rw [harg]
  have hy := exp_bracket (101327 / 105000) 0.38095 0.381 (by norm_num) (by norm_num)
    (by norm_num [Finset.sum_range_succ, Nat.factorial])
    (by norm_num [Finset.sum_range_succ, Nat.factorial])
  exact exp_bracket_sq _ _ _ _ _ (by norm_num) hy.1 hy.2 (by norm_num) (by norm_num)

/-- `exp(-B1 * 0.5745) ∈ [0.15906, 0.15912]`, via the half
argument. -/
theorem exp_a1 : (0.15906 : ℝ) ≤ Real.exp (-Scatter.B1 * (0.5745 : ℝ)) ∧
    Real.exp (-Scatter.B1 * (0.5745 : ℝ)) ≤ 0.15912 := by
  have harg : -Scatter.B1 * (0.5745 : ℝ) = -(2 * (18382851 / 20000000)) := by
    norm_num [Scatter.B1]
  rw [harg]
  have hy := exp_bracket (18382851 / 20000000) 0.39883 0.39889 (by norm_num) (by norm_num)
    (by norm_num [Finset.sum_range_succ, Nat.factorial])
    (by norm_num [Finset.sum_range_succ, Nat.factorial])
  exact exp_bracket_sq _ _ _ _ _ (by norm_num) hy.1 hy.2 (by norm_num) (by norm_num)

/-- `exp(-B1 * 0.5750) ∈ [0.15880, 0.15886]`, via the half
argument. -/
theorem exp_b1 : (0.15880 : ℝ) ≤ Real.exp (-Scatter.B1 * (0.5750 : ℝ)) ∧
    Real.exp (-Scatter.B1 * (0.5750 : ℝ)) ≤ 0.15886 := by
  have harg : -Scatter.B1 * (0.5750 : ℝ) = -(2 * (18398850 / 20000000)) := by
    norm_num [Scatter.B1]
  rw [harg]
  have hy := exp_bracket (18398850 / 20000000) 0.39851 0.39857 (by norm_num) (by norm_num)
    (by norm_num [Finset.sum_range_succ, Nat.factorial])
    (by norm_num [Finset.sum_range_succ, Nat.factorial])
  exact exp_bracket_sq _ _ _ _ _ (by norm_num) hy.1 hy.2 (by norm_num) (by norm_num)

/-- The ZBL screening function is antitone. -/
theorem ZBLscreen_fst_anti {a b : ℝ} (h : a ≤ b) :
    (Scatter.ZBLscreen b).1 ≤ (Scatter.ZBLscreen a).1 := by
  simp only [Scatter.ZBLscreen]
  have h1 : Real.exp (-Scatter.B1 * b) ≤ Real.exp (-Scatter.B1 * a) :=
    Real.exp_le_exp.mpr (by nlinarith [show (0:ℝ) < Scatter.B1 by norm_num [Scatter.B1]])
  have h2 : Real.exp (-Scatter.B2 * b) ≤ Real.exp (-Scatter.B2 * a) :=
    Real.exp_le_exp.mpr (by nlinarith [show (0:ℝ) < Scatter.B2 by norm_num [Scatter.B2]])
  have h3 : Real.exp (-Scatter.B3 * b) ≤ Real.exp (-Scatter.B3 * a) :=
    Real.exp_le_exp.mpr (by nlinarith [show (0:ℝ) < Scatter.B3 by norm_num [Scatter.B3]])
  have h4 : Real.exp (-Scatter.B4 * b) ≤ Real.exp (-Scatter.B4 * a) :=
    Real.exp_le_exp.mpr (by nlinarith [show (0:ℝ) < Scatter.B4 by norm_num [Scatter.B4]])
  have hA1 : (0:ℝ) < Scatter.A1 := by norm_num [Scatter.A1]
  have hA2 : (0:ℝ) < Scatter.A2 := by norm_num [Scatter.A2]
  have hA3 : (0:ℝ) < Scatter.A3 := by norm_num [Scatter.A3]
  have hA4 : (0:ℝ) < Scatter.A4 := by norm_num [Scatter.A4]
  nlinarith [h1, h2, h3, h4]

/-- The derivative part of the ZBL screening function is monotone
(it increases towards 0). -/
theorem ZBLscreen_snd_mono {a b : ℝ} (h : a ≤ b) :
    (Scatter.ZBLscreen a).2 ≤ (Scatter.ZBLscreen b).2 := by
  simp only [Scatter.ZBLscreen]
  have h1 : Real.exp (-Scatter.B1 * b) ≤ Real.exp (-Scatter.B1 * a) :=
    Real.exp_le_exp.mpr (by nlinarith [show (0:ℝ) < Scatter.B1 by norm_num [Scatter.B1]])
  have h2 : Real.exp (-Scatter.B2 * b) ≤ Real.exp (-Scatter.B2 * a) :=
    Real.exp_le_exp.mpr (by nlinarith [show (0:ℝ) < Scatter.B2 by norm_num [Scatter.B2]])
  have h3 : Real.exp (-Scatter.B3 * b) ≤ Real.exp (-Scatter.B3 * a) :=
    Real.exp_le_exp.mpr (by nlinarith [show (0:ℝ) < Scatter.B3 by norm_num [Scatter.B3]])
  have h4 : Real.exp (-Scatter.B4 * b) ≤ Real.exp (-Scatter.B4 * a) :=
    Real.exp_le_exp.mpr (by nlinarith [show (0:ℝ) < Scatter.B4 by norm_num [Scatter.B4]])
  have hA1 : (0:ℝ) < Scatter.A1B1 := by norm_num [Scatter.A1B1, Scatter.A1, Scatter.B1]
  have hA2 : (0:ℝ) < Scatter.A2B2 := by norm_num [Scatter.A2B2, Scatter.A2, Scatter.B2]
  have hA3 : (0:ℝ) < Scatter.A3B3 := by norm_num [Scatter.A3B3, Scatter.A3, Scatter.B3]
  have hA4 : (0:ℝ) < Scatter.A4B4 := by norm_num [Scatter.A4B4, Scatter.A4, Scatter.B4]
  nlinarith [h1, h2, h3, h4]

/-- Brackets for the ZBL screening function and its derivative at the
initial apsis estimate `38/63`. -/
theorem screen_P0_bounds :
    (0.55985 : ℝ) ≤ (Scatter.ZBLscreen (38 / 63)).1 ∧
    (Scatter.ZBLscreen (38 / 63)).1 ≤ 0.55994 ∧
    (-0.45017 : ℝ) ≤ (Scatter.ZBLscreen (38 / 63)).2 ∧
    (Scatter.ZBLscreen (38 / 63)).2 ≤ -0.45008 := by
  obtain ⟨h1l, h1h⟩ := exp_e1
  obtain ⟨h2l, h2h⟩ := exp_e2
  obtain ⟨h3l, h3h⟩ := exp_e3
  obtain ⟨h4l, h4h⟩ := exp_e4
  norm_num [Scatter.B1, Scatter.B2, Scatter.B3, Scatter.B4]
    at h1l h1h h2l h2h h3l h3h h4l h4h
  simp only [Scatter.ZBLscreen, Scatter.A1, Scatter.A2, Scatter.A3, Scatter.A4,
    Scatter.A1B1, Scatter.A2B2, Scatter.A3B3, Scatter.A4B4,
    Scatter.B1, Scatter.B2, Scatter.B3, Scatter.B4]
  norm_num
  refine ⟨by nlinarith, by nlinarith, by nlinarith, by nlinarith⟩

/-- Upper bounds for the ZBL screening pair at the lower bracket point
`0.5745` of the corrected apsis. -/
theorem screen_A_bounds :
    (Scatter.ZBLscreen (0.5745 : ℝ)).1 ≤ 0.57309 ∧
    (-0.46680 : ℝ) ≤ (Scatter.ZBLscreen (0.5745 : ℝ)).2 := by
  obtain ⟨h1l, h1h⟩ := exp_a1
  obtain ⟨h2l, h2h⟩ := exp_a2
  obtain ⟨h3l, h3h⟩ := exp_a3
  obtain ⟨h4l, h4h⟩ := exp_a4
  norm_num [Scatter.B1, Scatter.B2, Scatter.B3, Scatter.B4]
    at h1l h1h h2l h2h h3l h3h h4l h4h
  simp only [Scatter.ZBLscreen, Scatter.A1, Scatter.A2, Scatter.A3, Scatter.A4,
    Scatter.A1B1, Scatter.A2B2, Scatter.A3B3, Scatter.A4B4,
    Scatter.B1, Scatter.B2, Scatter.B3, Scatter.B4]
  norm_num
  refine ⟨by nlinarith, by nlinarith⟩

/-- Lower bounds for the ZBL screening pair at the upper bracket point
`0.5750` of the corrected apsis. -/
theorem screen_B_bounds :
    (0.57276 : ℝ) ≤ (Scatter.ZBLscreen (0.5750 : ℝ)).1 ∧
    (Scatter.ZBLscreen (0.5750 : ℝ)).2 ≤ -0.46639 := by
  obtain ⟨h1l, h1h⟩ := exp_b1
  obtain ⟨h2l, h2h⟩ := exp_b2
  obtain ⟨h3l, h3h⟩ := exp_b3
  obtain ⟨h4l, h4h⟩ := exp_b4
  norm_num [Scatter.B1, Scatter.B2, Scatter.B3, Scatter.B4]
    at h1l h1h h2l h2h h3l h3h h4l h4h
  simp only [Scatter.ZBLscreen, Scatter.A1, Scatter.A2, Scatter.A3, Scatter.A4,
    Scatter.A1B1, Scatter.A2B2, Scatter.A3B3, Scatter.A4B4,
    Scatter.B1, Scatter.B2, Scatter.B3, Scatter.B4]
  norm_num
  refine ⟨by nlinarith, by nlinarith⟩

set_option maxHeartbeats 2000000 in
/-- The magic formula at `(e, p) = (1, 0)` — a head-on collision at
`E = ENORM` — yields `cos(θ/2) ∈ [1/400, 1/100]`: a value near 0
(maximum deflection), not near 1. -/
theorem magic_one_zero_bounds :
    (1 / 400 : ℝ) ≤ Scatter.magic 1 0 ∧ Scatter.magic 1 0 ≤ 1 / 100 := by
  -- the initial apsis estimate at (1, 0) is exactly 38/63
  have hv : ((1 : ℝ) + Real.sqrt (1 + 4 * 1 * (1 + Scatter.K1) * (0 : ℝ) ^ 2)) /
      (2 * (1 + Scatter.K1)) = 38 / 63 := by
    rw [show (1 + 4 * 1 * (1 + Scatter.K1) * (0 : ℝ) ^ 2 : ℝ) = 1 by ring,
      Real.sqrt_one]
    norm_num [Scatter.K1, Scatter.K2]
  have hsqrt288 : Real.sqrt (28.8 : ℝ) ≤ 6 := by
    calc Real.sqrt (28.8 : ℝ) ≤ Real.sqrt 36 := Real.sqrt_le_sqrt (by norm_num)
      _ = 6 := by rw [show (36 : ℝ) = 6 ^ 2 by norm_num, Real.sqrt_sq (by norm_num)]
  have hc1 : (0.5 : ℝ) * ((0 : ℝ) ^ 2 + Real.sqrt (((0 : ℝ) ^ 2) ^ 2 +
      4 * Scatter.K3 / 1)) < Scatter.R23sq := by
    rw [show (((0 : ℝ) ^ 2) ^ 2 + 4 * Scatter.K3 / 1 : ℝ) = 28.8 by
      norm_num [Scatter.K3]]
    have : Scatter.R23sq = 7.2 / 0.38 := by norm_num [Scatter.R23sq, Scatter.K3, Scatter.K2]
    rw [this]
    linarith [hsqrt288]
  have hc2 : ((0 : ℝ) ^ 2 + Scatter.K2 / 1 : ℝ) < Scatter.R12sq := by
    norm_num [Scatter.K2, Scatter.R12sq]
  have happ : Scatter.estimate_apsis 1 0 = 38 / 63 -
      ((38 / 63) * ((38 / 63) - (Scatter.ZBLscreen (38 / 63)).1 / 1) - (0 : ℝ) ^ 2) /
      (2 * (38 / 63) - ((Scatter.ZBLscreen (38 / 63)).1 +
        (38 / 63) * (Scatter.ZBLscreen (38 / 63)).2) / 1) := by
    simp only [Scatter.estimate_apsis]
    rw [if_pos hc1, if_pos hc2, hv]
  -- brackets for the Newton correction
  obtain ⟨hs0l, hs0h, hd0l, hd0h⟩ := screen_P0_bounds
  have hnuml : (0.02607 : ℝ) ≤
      (38 / 63) * ((38 / 63) - (Scatter.ZBLscreen (38 / 63)).1 / 1) - (0 : ℝ) ^ 2 := by
    nlinarith
  have hnumh :
      (38 / 63) * ((38 / 63) - (Scatter.ZBLscreen (38 / 63)).1 / 1) - (0 : ℝ) ^ 2
        ≤ 0.02614 := by
    nlinarith
  have hdenl : (0.91788 : ℝ) ≤ 2 * (38 / 63) - ((Scatter.ZBLscreen (38 / 63)).1 +
      (38 / 63) * (Scatter.ZBLscreen (38 / 63)).2) / 1 := by
    linarith
  have hdenh : 2 * (38 / 63) - ((Scatter.ZBLscreen (38 / 63)).1 +
      (38 / 63) * (Scatter.ZBLscreen (38 / 63)).2) / 1 ≤ 0.91804 := by
    linarith
  have hdenpos : (0 : ℝ) < 2 * (38 / 63) - ((Scatter.ZBLscreen (38 / 63)).1 +
      (38 / 63) * (Scatter.ZBLscreen (38 / 63)).2) / 1 := by linarith
  have hstep_hi :
      ((38 / 63) * ((38 / 63) - (Scatter.ZBLscreen (38 / 63)).1 / 1) - (0 : ℝ) ^ 2) /
      (2 * (38 / 63) - ((Scatter.ZBLscreen (38 / 63)).1 +
        (38 / 63) * (Scatter.ZBLscreen (38 / 63)).2) / 1) ≤ 0.02849 := by
    rw [div_le_iff₀ hdenpos]
    nlinarith
  have hstep_lo : (0.02839 : ℝ) ≤
      ((38 / 63) * ((38 / 63) - (Scatter.ZBLscreen (38 / 63)).1 / 1) - (0 : ℝ) ^ 2) /
      (2 * (38 / 63) - ((Scatter.ZBLscreen (38 / 63)).1 +
        (38 / 63) * (Scatter.ZBLscreen (38 / 63)).2) / 1) := by
    rw [le_div_iff₀ hdenpos]
    nlinarith
  have hRlo : (0.5745 : ℝ) ≤ Scatter.estimate_apsis 1 0 := by
    rw [happ]; linarith
  have hRhi : Scatter.estimate_apsis 1 0 ≤ 0.5750 := by
    rw [happ]; linarith
  have hRpos : (0 : ℝ) < Scatter.estimate_apsis 1 0 := by linarith
  -- brackets for the screening pair at the corrected apsis
  have hS1hi : (Scatter.ZBLscreen (Scatter.estimate_apsis 1 0)).1 ≤ 0.57309 :=
    le_trans (ZBLscreen_fst_anti hRlo) screen_A_bounds.1
  have hS1lo : (0.57276 : ℝ) ≤ (Scatter.ZBLscreen (Scatter.estimate_apsis 1 0)).1 :=
    le_trans screen_B_bounds.1 (ZBLscreen_fst_anti hRhi)
  have hS2hi : (Scatter.ZBLscreen (Scatter.estimate_apsis 1 0)).2 ≤ -0.46639 :=
    le_trans (ZBLscreen_snd_mono hRhi) screen_B_bounds.2
  have hS2lo : (-0.46680 : ℝ) ≤ (Scatter.ZBLscreen (Scatter.estimate_apsis 1 0)).2 :=
    le_trans screen_A_bounds.2 (ZBLscreen_snd_mono hRlo)
  -- the magic value at (1, 0) reduces to rho / (r0 + rho)
  have hbne : ((Scatter.C2 + 1) / (Scatter.C3 + 1) : ℝ) ≠ 0 := by
    norm_num [Scatter.C2, Scatter.C3]
  have hmagic : Scatter.magic 1 0 =
      (0 + 2 * (1 * Scatter.estimate_apsis 1 0 -
          (Scatter.ZBLscreen (Scatter.estimate_apsis 1 0)).1) /
        ((Scatter.ZBLscreen (Scatter.estimate_apsis 1 0)).1 /
          Scatter.estimate_apsis 1 0 -
          (Scatter.ZBLscreen (Scatter.estimate_apsis 1 0)).2) + 0) /
      (Scatter.estimate_apsis 1 0 +
        2 * (1 * Scatter.estimate_apsis 1 0 -
          (Scatter.ZBLscreen (Scatter.estimate_apsis 1 0)).1) /
        ((Scatter.ZBLscreen (Scatter.estimate_apsis 1 0)).1 /
          Scatter.estimate_apsis 1 0 -
          (Scatter.ZBLscreen (Scatter.estimate_apsis 1 0)).2)) := by
    simp only [Scatter.magic, Real.sqrt_one, Real.zero_rpow hbne, mul_zero,
      zero_mul, zero_div, add_zero, zero_add]
  -- interval chain for rho and the final quotient
  have hrnl : (0.00282 : ℝ) ≤ 2 * (1 * Scatter.estimate_apsis 1 0 -
      (Scatter.ZBLscreen (Scatter.estimate_apsis 1 0)).1) := by nlinarith
  have hrnh : 2 * (1 * Scatter.estimate_apsis 1 0 -
      (Scatter.ZBLscreen (Scatter.estimate_apsis 1 0)).1) ≤ 0.00448 := by nlinarith
  have hql : (0.9960 : ℝ) ≤ (Scatter.ZBLscreen (Scatter.estimate_apsis 1 0)).1 /
      Scatter.estimate_apsis 1 0 := by
    rw [le_div_iff₀ hRpos]
    nlinarith
  have hqh : (Scatter.ZBLscreen (Scatter.estimate_apsis 1 0)).1 /
      Scatter.estimate_apsis 1 0 ≤ 0.9976 := by
    rw [div_le_iff₀ hRpos]
    nlinarith
  have hrdl : (1.46239 : ℝ) ≤ (Scatter.ZBLscreen (Scatter.estimate_apsis 1 0)).1 /
      Scatter.estimate_apsis 1 0 -
      (Scatter.ZBLscreen (Scatter.estimate_apsis 1 0)).2 := by linarith
  have hrdh : (Scatter.ZBLscreen (Scatter.estimate_apsis 1 0)).1 /
      Scatter.estimate_apsis 1 0 -
      (Scatter.ZBLscreen (Scatter.estimate_apsis 1 0)).2 ≤ 1.46440 := by linarith
  have hrdpos : (0 : ℝ) < (Scatter.ZBLscreen (Scatter.estimate_apsis 1 0)).1 /
      Scatter.estimate_apsis 1 0 -
      (Scatter.ZBLscreen (Scatter.estimate_apsis 1 0)).2 := by linarith
  have hrhol : (0.00192 : ℝ) ≤ 2 * (1 * Scatter.estimate_apsis 1 0 -
      (Scatter.ZBLscreen (Scatter.estimate_apsis 1 0)).1) /
      ((Scatter.ZBLscreen (Scatter.estimate_apsis 1 0)).1 /
        Scatter.estimate_apsis 1 0 -
        (Scatter.ZBLscreen (Scatter.estimate_apsis 1 0)).2) := by
    rw [le_div_iff₀ hrdpos]
    nlinarith
  have hrhoh : 2 * (1 * Scatter.estimate_apsis 1 0 -
      (Scatter.ZBLscreen (Scatter.estimate_apsis 1 0)).1) /
      ((Scatter.ZBLscreen (Scatter.estimate_apsis 1 0)).1 /
        Scatter.estimate_apsis 1 0 -
        (Scatter.ZBLscreen (Scatter.estimate_apsis 1 0)).2) ≤ 0.00307 := by
    rw [div_le_iff₀ hrdpos]
    nlinarith
  have hcdl : (0.57642 : ℝ) ≤ Scatter.estimate_apsis 1 0 +
      2 * (1 * Scatter.estimate_apsis 1 0 -
        (Scatter.ZBLscreen (Scatter.estimate_apsis 1 0)).1) /
      ((Scatter.ZBLscreen (Scatter.estimate_apsis 1 0)).1 /
        Scatter.estimate_apsis 1 0 -
        (Scatter.ZBLscreen (Scatter.estimate_apsis 1 0)).2) := by linarith
  have hcdh : Scatter.estimate_apsis 1 0 +
      2 * (1 * Scatter.estimate_apsis 1 0 -
        (Scatter.ZBLscreen (Scatter.estimate_apsis 1 0)).1) /
      ((Scatter.ZBLscreen (Scatter.estimate_apsis 1 0)).1 /
        Scatter.estimate_apsis 1 0 -
        (Scatter.ZBLscreen (Scatter.estimate_apsis 1 0)).2) ≤ 0.57807 := by linarith
  have hcdpos : (0 : ℝ) < Scatter.estimate_apsis 1 0 +
      2 * (1 * Scatter.estimate_apsis 1 0 -
        (Scatter.ZBLscreen (Scatter.estimate_apsis 1 0)).1) /
      ((Scatter.ZBLscreen (Scatter.estimate_apsis 1 0)).1 /
        Scatter.estimate_apsis 1 0 -
        (Scatter.ZBLscreen (Scatter.estimate_apsis 1 0)).2) := by linarith
  rw [hmagic]
  constructor
  · rw [zero_add, add_zero, le_div_iff₀ hcdpos]
    nlinarith
  · rw [zero_add, add_zero, div_le_iff₀ hcdpos]
    nlinarith

/-- Species parameters for protons on protons
(`setup(z1=1, m1=1, z2=1, m2=1)`); all derived factors are rational
because `1 ** 0.23 = 1`. -/
def protonPrm : Scatter.Params := Scatter.setup 1 1 1 1

theorem protonPrm_enorm : protonPrm.enorm 0 = 2879958 / 23425 := by
  simp only [protonPrm, Scatter.setup, Real.one_rpow, Matrix.cons_val_zero]
  norm_num

theorem protonPrm_rnorm : protonPrm.rnorm 0 = 937 / 4000 := by
  simp only [protonPrm, Scatter.setup, Real.one_rpow, Matrix.cons_val_zero]
  norm_num

theorem protonPrm_dirfac : protonPrm.dirfac 0 = 1 := by
  simp only [protonPrm, Scatter.setup, Matrix.cons_val_zero]
  norm_num

theorem protonPrm_denfac : protonPrm.denfac 0 = 1 := by
  simp only [protonPrm, Scatter.setup, Matrix.cons_val_zero]
  norm_num

/-- The proton-on-proton `ENORM` as a real number is positive. -/
theorem protonE_pos : (0 : ℝ) < 2879958 / 23425 := by norm_num

/-- Post-collision state of the scalar scatter at `dirfac = denfac = 1`
for incident direction `(0,0,1)`, impact direction `(-1,0,0)` and a small
positive `cos(θ/2) = c`: the projectile is deflected to
`(sqrt(1-c²), 0, c)` and the recoil carries `E·(1-c²)`. -/
theorem scatterPost_head_on (c E : ℝ) (hc0 : 0 < c) (hc1 : c ≤ 1 / 100) :
    (Scatter.scatterPost 1 1 c E ⟨0, 0, 1⟩ ⟨-1, 0, 0⟩).1 =
      ⟨Real.sqrt (1 - c ^ 2), 0, c⟩ ∧
    (Scatter.scatterPost 1 1 c E ⟨0, 0, 1⟩ ⟨-1, 0, 0⟩).2.2 = E * (1 - c ^ 2) := by
  have hc2 : c ^ 2 ≤ 1 := by nlinarith
  have hs2 : Real.sqrt (1 - c ^ 2) ^ 2 = 1 - c ^ 2 := Real.sq_sqrt (by linarith)
  have hs0 : 0 ≤ Real.sqrt (1 - c ^ 2) := Real.sqrt_nonneg _
  have hrecoil : V3.smul (1 * Real.sqrt (1 - c ^ 2))
      (V3.add (V3.smul (Real.sqrt (1 - c ^ 2)) ⟨0, 0, 1⟩)
        (V3.smul c ⟨-1, 0, 0⟩)) =
      ⟨-(Real.sqrt (1 - c ^ 2) * c), 0, Real.sqrt (1 - c ^ 2) ^ 2⟩ := by
    simp only [V3.smul, V3.add, V3.mk.injEq]
    refine ⟨by ring, by ring, by ring⟩
  have hdirnew : V3.sub ⟨0, 0, 1⟩
      ⟨-(Real.sqrt (1 - c ^ 2) * c), 0, Real.sqrt (1 - c ^ 2) ^ 2⟩ =
      ⟨Real.sqrt (1 - c ^ 2) * c, 0, c ^ 2⟩ := by
    simp only [V3.sub, V3.mk.injEq]
    refine ⟨by ring, by ring, by linarith [hs2]⟩
  have hnorm : V3.norm ⟨Real.sqrt (1 - c ^ 2) * c, 0, c ^ 2⟩ = c := by
    simp only [V3.norm]
    rw [show (Real.sqrt (1 - c ^ 2) * c) ^ 2 + (0 : ℝ) ^ 2 + (c ^ 2) ^ 2 = c ^ 2 by
      nlinarith [hs2]]
    exact Real.sqrt_sq hc0.le
  have hdiv : V3.sdiv ⟨Real.sqrt (1 - c ^ 2) * c, 0, c ^ 2⟩ c =
      ⟨Real.sqrt (1 - c ^ 2), 0, c⟩ := by
    simp only [V3.sdiv, V3.mk.injEq]
    refine ⟨mul_div_cancel_right₀ _ (ne_of_gt hc0), by simp, ?_⟩
    rw [sq]
    exact mul_div_cancel_right₀ _ (ne_of_gt hc0)
  constructor
  · simp only [Scatter.scatterPost]
    rw [hrecoil, hdirnew, hnorm, if_neg (ne_of_gt hc0), hdiv]
  · simp only [Scatter.scatterPost]
    ring

/-- C3 counterexample: at impact parameter 0 and energy `E = ENORM`
(protons on protons) the scattering kernel does NOT give
`cos(θ/2) = 1` within `1e-6` — the value lies in `[1/400, 1/100]`, i.e.
near-maximal deflection — and correspondingly `e_recoil ≠ 0`,
`e_new ≠ energy` and `dir_new ≠ direction`. -/
theorem claim_C3_cex :
    ¬ |Scatter.magic 1 0 - 1| ≤ 1e-6 ∧
    (Scatter.scatter protonPrm ⟨2879958 / 23425, V3.zero, ⟨0, 0, 1⟩, 0, true⟩ 0
      ⟨-1, 0, 0⟩).2.2 ≠ 0 ∧
    (Scatter.scatter protonPrm ⟨2879958 / 23425, V3.zero, ⟨0, 0, 1⟩, 0, true⟩ 0
      ⟨-1, 0, 0⟩).1.e ≠ 2879958 / 23425 ∧
    (Scatter.scatter protonPrm ⟨2879958 / 23425, V3.zero, ⟨0, 0, 1⟩, 0, true⟩ 0
      ⟨-1, 0, 0⟩).1.dir ≠ (⟨0, 0, 1⟩ : V3) := by
  obtain ⟨hcl, hch⟩ := magic_one_zero_bounds
  have hargs : (2879958 / 23425 : ℝ) / protonPrm.enorm 0 = 1 ∧
      (0 : ℝ) / protonPrm.rnorm 0 = 0 := by
    rw [protonPrm_enorm, protonPrm_rnorm]
    norm_num
  have hscat : Scatter.scatter protonPrm
      ⟨2879958 / 23425, V3.zero, ⟨0, 0, 1⟩, 0, true⟩ 0 ⟨-1, 0, 0⟩ =
      (let post := Scatter.scatterPost 1 1 (Scatter.magic 1 0) (2879958 / 23425)
        ⟨0, 0, 1⟩ ⟨-1, 0, 0⟩
       ({ e := 2879958 / 23425 - post.2.2, pos := V3.zero, dir := post.1,
          ispec := 0, is_inside := true }, post.2.1, post.2.2)) := by
    simp only [Scatter.scatter, hargs.1, hargs.2, protonPrm_dirfac, protonPrm_denfac]
  have hpost := scatterPost_head_on (Scatter.magic 1 0) (2879958 / 23425)
    (by linarith) hch
  refine ⟨?_, ?_, ?_, ?_⟩
  · intro h
    have h1 := abs_le.mp h
    linarith [h1.1]
  · rw [hscat]
    simp only [hpost.2]
    intro h
    nlinarith [hcl, hch]
  · rw [hscat]
    simp only [hpost.2, Scatter.Projectile.mk.injEq]
    intro h
    nlinarith [hcl, hch]
  · rw [hscat]
    simp only [hpost.1]
    intro h
    have hz := congrArg V3.z h
    simp only at hz
    nlinarith [hcl, hch]

/-- C3 amended: at impact parameter 0 the collision is (near) head-on —
`cos(θ/2)` is close to 0, not 1, and nearly ALL of the projectile energy
is transferred to the recoil: for protons at `E = ENORM`,
`e_recoil = E·(1 − cos²(θ/2)) ≥ (9999/10000)·E`. -/
theorem claim_C3_corrected (pos : V3) (dirp : V3) :
    Scatter.magic 1 0 ∈ Set.Icc (1 / 400 : ℝ) (1 / 100) ∧
    (Scatter.scatter protonPrm ⟨2879958 / 23425, pos, ⟨0, 0, 1⟩, 0, true⟩ 0
      dirp).2.2 = (2879958 / 23425) * (1 - Scatter.magic 1 0 ^ 2) ∧
    (9999 / 10000 : ℝ) * (2879958 / 23425) ≤
      (2879958 / 23425 : ℝ) * (1 - Scatter.magic 1 0 ^ 2) := by
  obtain ⟨hcl, hch⟩ := magic_one_zero_bounds
  have hargs : (2879958 / 23425 : ℝ) / protonPrm.enorm 0 = 1 ∧
      (0 : ℝ) / protonPrm.rnorm 0 = 0 := by
    rw [protonPrm_enorm, protonPrm_rnorm]
    norm_num
  refine ⟨⟨hcl, hch⟩, ?_, ?_⟩
  · simp only [Scatter.scatter, Scatter.scatterPost, hargs.1, hargs.2,
      protonPrm_denfac]
    ring
  · nlinarith [hcl, hch]

/-- `List.getD` is unchanged by a `set` at a different index. -/
theorem getD_set_ne {α : Type} (l : List α) (j i : ℕ) (a d : α) (h : j ≠ i) :
    (l.set j a).getD i d = l.getD i d := by
  simp [List.getD_eq_getElem?_getD, List.getElem?_set_ne h]

/-- A fold of `set`s over index/value rows leaves any untouched index
unchanged. -/
theorem foldl_set_getD_eq {α β : Type} (d : α) (i : ℕ) :
    ∀ (rows : List (ℕ × β)) (l : List α) (g : ℕ × β → α),
      (∀ r ∈ rows, r.1 ≠ i) →
      (rows.foldl (fun acc r => acc.set r.1 (g r)) l).getD i d = l.getD i d := by
  intro rows
  induction rows with
  | nil => intro l g _; rfl
  | cons r rest ih =>
    intro l g h
    rw [List.foldl_cons, ih _ g (fun q hq => h q (List.mem_cons_of_mem _ hq)),
      getD_set_ne _ _ _ _ _ (h r (List.mem_cons_self _ _))]

/-- A dead ion (`is_inside[i] = False`) is not in the active set. -/
theorem not_mem_validIons_of_dead (emin : ℝ) (s : TrajectoryBulk.BState) (i : ℕ)
    (h : s.inside.getD i false = false) :
    i ∉ TrajectoryBulk.validIons emin s := by
  intro hmem
  rw [TrajectoryBulk.validIons, List.mem_filter] at hmem
  have h2 := hmem.2
  rw [Bool.and_eq_true] at h2
  rw [h] at h2
  exact Bool.false_ne_true h2.2

/-- One bulk driver iteration never writes to the row of a dead ion. -/
theorem trajStep_dead (st : TrajectoryBulk.Setup) (rng : List (ℝ × ℝ))
    (s : TrajectoryBulk.BState) (i : ℕ) (h : s.inside.getD i false = false) :
    (TrajectoryBulk.trajStep st rng s).e.getD i 0 = s.e.getD i 0 ∧
    (TrajectoryBulk.trajStep st rng s).pos.getD i V3.zero = s.pos.getD i V3.zero ∧
    (TrajectoryBulk.trajStep st rng s).dir.getD i V3.zero = s.dir.getD i V3.zero ∧
    (TrajectoryBulk.trajStep st rng s).inside.getD i false = false := by
  have hA := not_mem_validIons_of_dead st.emin s i h
  have hrows : ∀ r ∈ ((TrajectoryBulk.validIons st.emin s).zip rng).map
      (fun iu : ℕ × (ℝ × ℝ) =>
        let i := iu.1
        let e0 := s.e.getD i 0
        let pos0 := s.pos.getD i V3.zero
        let dir0 := s.dir.getD i V3.zero
        let grp := SelectRecoil.get_recoil_position st.mfp st.pmax pos0 dir0 iu.2.1 iu.2.2
        let free_path := grp.1
        let p := grp.2.1
        let dirp := grp.2.2.1
        let dee := Estop.eloss st.fac_lindhard st.density e0 free_path
        let e1 := e0 - dee
        let pos1 := V3.add pos0 (V3.smul free_path dir0)
        let inside1 := Geometry.is_inside_target st.zmin st.zmax pos1
        let sc := ScatterBulk.scatter st.enorm st.rnorm st.dirfac st.denfac e1 dir0 p dirp
        (i, sc.2.1, pos1, sc.1, inside1)), r.1 ≠ i := by
    intro r hr hri
    obtain ⟨⟨a, u⟩, hx, rfl⟩ := List.mem_map.mp hr
    have ha : a = i := hri
    exact hA (ha ▸ (List.of_mem_zip hx).1)
  refine ⟨?_, ?_, ?_, ?_⟩
  · exact foldl_set_getD_eq 0 i _ s.e (fun r => r.2.1) hrows
  · exact foldl_set_getD_eq V3.zero i _ s.pos (fun r => r.2.2.1) hrows
  · exact foldl_set_getD_eq V3.zero i _ s.dir (fun r => r.2.2.2.1) hrows
  · show (TrajectoryBulk.trajStep st rng s).inside.getD i false = false
    exact (foldl_set_getD_eq false i _ s.inside (fun r => r.2.2.2.2) hrows).trans h

/-- The whole bulk driver loop never writes to the row of a dead ion. -/
theorem trajRun_dead (st : TrajectoryBulk.Setup) (rngs : ℕ → List (ℝ × ℝ)) (i : ℕ) :
    ∀ (fuel k : ℕ) (s : TrajectoryBulk.BState), s.inside.getD i false = false →
      (TrajectoryBulk.trajRun st rngs fuel k s).e.getD i 0 = s.e.getD i 0 ∧
      (TrajectoryBulk.trajRun st rngs fuel k s).pos.getD i V3.zero = s.pos.getD i V3.zero ∧
      (TrajectoryBulk.trajRun st rngs fuel k s).dir.getD i V3.zero = s.dir.getD i V3.zero ∧
      (TrajectoryBulk.trajRun st rngs fuel k s).inside.getD i false = false := by
  intro fuel
  induction fuel with
  | zero => intro k s h; exact ⟨rfl, rfl, rfl, h⟩
  | succ n ih =>
    intro k s h
    simp only [TrajectoryBulk.trajRun]
    by_cases hc : TrajectoryBulk.stepCond st.emin s = true
    · rw [if_pos hc]
      have hstep := trajStep_dead st (rngs k) s i h
      have hrec := ih (k + 1) _ hstep.2.2.2
      exact ⟨hrec.1.trans hstep.1, hrec.2.1.trans hstep.2.1,
        hrec.2.2.1.trans hstep.2.2.1, hrec.2.2.2⟩
    · rw [if_neg hc]
      exact ⟨rfl, rfl, rfl, h⟩

/-- Bulk head-on analogue of `scatterPost_head_on` for the vectorised
kernel (which has no zero-norm fallback): projectile direction
`(sqrt(1-c²), 0, c)` and post-collision energy `E - E·(1-c²)`. -/
theorem scatterPostBulk_head_on (c E : ℝ) (hc0 : 0 < c) (hc1 : c ≤ 1 / 100) :
    (ScatterBulk.scatterPost 1 1 c E ⟨0, 0, 1⟩ ⟨-1, 0, 0⟩).1 =
      ⟨Real.sqrt (1 - c ^ 2), 0, c⟩ ∧
    (ScatterBulk.scatterPost 1 1 c E ⟨0, 0, 1⟩ ⟨-1, 0, 0⟩).2.1 =
      E - E * (1 - c ^ 2) := by
  have hc2 : c ^ 2 ≤ 1 := by nlinarith
  have hs2 : Real.sqrt (1 - c ^ 2) ^ 2 = 1 - c ^ 2 := Real.sq_sqrt (by linarith)
  have hrecoil : V3.smul (1 * Real.sqrt (1 - c ^ 2))
      (V3.add (V3.smul (Real.sqrt (1 - c ^ 2)) ⟨0, 0, 1⟩)
        (V3.smul c ⟨-1, 0, 0⟩)) =
      ⟨-(Real.sqrt (1 - c ^ 2) * c), 0, Real.sqrt (1 - c ^ 2) ^ 2⟩ := by
    simp only [V3.smul, V3.add, V3.mk.injEq]
    refine ⟨by ring, by ring, by ring⟩
  have hdirnew : V3.sub ⟨0, 0, 1⟩
      ⟨-(Real.sqrt (1 - c ^ 2) * c), 0, Real.sqrt (1 - c ^ 2) ^ 2⟩ =
      ⟨Real.sqrt (1 - c ^ 2) * c, 0, c ^ 2⟩ := by
    simp only [V3.sub, V3.mk.injEq]
    refine ⟨by ring, by ring, by linarith [hs2]⟩
  have hnorm : V3.norm ⟨Real.sqrt (1 - c ^ 2) * c, 0, c ^ 2⟩ = c := by
    simp only [V3.norm]
    rw [show (Real.sqrt (1 - c ^ 2) * c) ^ 2 + (0 : ℝ) ^ 2 + (c ^ 2) ^ 2 = c ^ 2 by
      nlinarith [hs2]]
    exact Real.sqrt_sq hc0.le
  have hdiv : V3.sdiv ⟨Real.sqrt (1 - c ^ 2) * c, 0, c ^ 2⟩ c =
      ⟨Real.sqrt (1 - c ^ 2), 0, c⟩ := by
    simp only [V3.sdiv, V3.mk.injEq]
    refine ⟨mul_div_cancel_right₀ _ (ne_of_gt hc0), by simp, ?_⟩
    rw [sq]
    exact mul_div_cancel_right₀ _ (ne_of_gt hc0)
  constructor
  · simp only [ScatterBulk.scatterPost]
    rw [hrecoil, hdirnew, hnorm, hdiv]
  · simp only [ScatterBulk.scatterPost]
    ring

/-- Bulk driver setup for the C4 scenario: slab `[0, 1/2]`, mean free path
1, no electronic stopping, proton-on-proton scattering constants. -/
def st4 : TrajectoryBulk.Setup :=
  ⟨5, 0, 1 / 2, 1, 1, 0, 1, 2879958 / 23425, 937 / 4000, 1, 1⟩

/-- Two-ion batch for the C4 scenario: ion 0 is below the cut-off, ion 1
moves in `+z` from the origin at normalised energy `ENORM`. -/
def s4 : TrajectoryBulk.BState :=
  ⟨[0, 2879958 / 23425], [V3.zero, V3.zero], [⟨0, 0, 1⟩, ⟨0, 0, 1⟩], [true, true]⟩

theorem hA4 : TrajectoryBulk.validIons 5 s4 = [1] := by
  simp [TrajectoryBulk.validIons, s4, List.range_succ]
  norm_num

theorem hgrp4 : SelectRecoil.get_recoil_position 1 1 V3.zero ⟨0, 0, 1⟩ 0 0 =
    (1, 0, ⟨-1, 0, 0⟩, ⟨0, 0, 1⟩) := by
  simp [SelectRecoil.get_recoil_position, SelectRecoil.dirpRaw, SelectRecoil.argmin3,
    V3.add, V3.smul, V3.zero, V3.norm, V3.sdiv]

theorem hstep4 : TrajectoryBulk.trajStep st4 [(0, 0)] s4 =
    ⟨[0, (ScatterBulk.scatterPost 1 1 (Scatter.magic 1 0) (2879958 / 23425)
        ⟨0, 0, 1⟩ ⟨-1, 0, 0⟩).2.1],
     [V3.zero, ⟨0, 0, 1⟩],
     [⟨0, 0, 1⟩, (ScatterBulk.scatterPost 1 1 (Scatter.magic 1 0) (2879958 / 23425)
        ⟨0, 0, 1⟩ ⟨-1, 0, 0⟩).1],
     [true, false]⟩ := by
  have hE : (2879958 / 23425 : ℝ) / (2879958 / 23425) = 1 := by norm_num
  have h0r : (0 : ℝ) / (937 / 4000) = 0 := by norm_num
  have heloss : Estop.eloss 0 1 (2879958 / 23425) 1 = 0 := by
    simp [Estop.eloss]
    norm_num
  have hins : Geometry.is_inside_target 0 (1 / 2)
      (V3.add V3.zero (V3.smul 1 ⟨0, 0, 1⟩)) = false := by
    simp [Geometry.is_inside_target, V3.add, V3.smul, V3.zero]
    norm_num
  simp only [TrajectoryBulk.trajStep, st4]
  rw [show TrajectoryBulk.validIons 5 s4 = [1] from hA4]
  simp only [List.zip_cons_cons, List.zip_nil_right, List.map_cons, List.map_nil,
    s4, List.getD_cons_succ, List.getD_cons_zero, hgrp4, heloss, hins, sub_zero,
    List.foldl_cons, List.foldl_nil, ScatterBulk.scatter, hE, h0r]
  rw [show V3.add V3.zero (V3.smul 1 ⟨0, 0, 1⟩) = (⟨0, 0, 1⟩ : V3) from by
    simp [V3.add, V3.smul, V3.zero]]
  rfl

theorem hcond4 : TrajectoryBulk.stepCond 5 s4 = true := by
  simp [TrajectoryBulk.stepCond, hA4]

theorem hcond4' : TrajectoryBulk.stepCond 5 (TrajectoryBulk.trajStep st4 [(0, 0)] s4) =
    false := by
  rw [hstep4]
  simp [TrajectoryBulk.stepCond, TrajectoryBulk.validIons, List.range_succ]

/-- C4 counterexample development: the full run equals the one-step state. -/
theorem hrun4 (fuel k : ℕ) :
    TrajectoryBulk.trajRun st4 (fun _ => [(0, 0)]) (fuel + 1) k s4 =
      TrajectoryBulk.trajStep st4 [(0, 0)] s4 := by
  simp only [TrajectoryBulk.trajRun]
  rw [if_pos (show TrajectoryBulk.stepCond st4.emin s4 = true from hcond4)]
  cases fuel with
  | zero => rfl
  | succ n =>
    simp only [TrajectoryBulk.trajRun]
    rw [if_neg]
    rw [show st4.emin = 5 from rfl]
    rw [hcond4']
    simp

/-- C4 counterexample: in the bulk driver, an ion that exits the slab
during the position advance still has the post-scatter energy and
direction written back to its row — the recorded final state does NOT
equal the at-exit state.  Ion 1 exits (advance reaches `z = 1 > 1/2`) with
at-exit energy `ENORM` (no stopping) and at-exit direction `(0,0,1)`, yet
after the driver loop its recorded energy differs from `ENORM` and its
recorded direction differs from `(0,0,1)`. -/
theorem claim_C4_cex :
    Estop.eloss 0 1 (2879958 / 23425) 1 = 0 ∧
    Geometry.is_inside_target 0 (1 / 2)
      (V3.add V3.zero (V3.smul 1 ⟨0, 0, 1⟩)) = false ∧
    ∀ fuel k : ℕ,
      (TrajectoryBulk.trajRun st4 (fun _ => [(0, 0)]) (fuel + 1) k s4).inside =
        [true, false] ∧
      (TrajectoryBulk.trajRun st4 (fun _ => [(0, 0)]) (fuel + 1) k s4).e.getD 1 0 ≠
        2879958 / 23425 ∧
      (TrajectoryBulk.trajRun st4 (fun _ => [(0, 0)]) (fuel + 1) k s4).dir.getD 1
        V3.zero ≠ ⟨0, 0, 1⟩ := by
  obtain ⟨hml, hmh⟩ := magic_one_zero_bounds
  have hsc := scatterPostBulk_head_on (Scatter.magic 1 0) (2879958 / 23425)
    (by linarith) hmh
  have heloss : Estop.eloss 0 1 (2879958 / 23425) 1 = 0 := by
    simp [Estop.eloss]
    norm_num
  have hins : Geometry.is_inside_target 0 (1 / 2)
      (V3.add V3.zero (V3.smul 1 ⟨0, 0, 1⟩)) = false := by
    simp [Geometry.is_inside_target, V3.add, V3.smul, V3.zero]
    norm_num
  refine ⟨heloss, hins, ?_⟩
  intro fuel k
  rw [hrun4 fuel k, hstep4]
  refine ⟨rfl, ?_, ?_⟩
  · simp only [List.getD_cons_succ, List.getD_cons_zero, hsc.2]
    intro h
    nlinarith [hml, hmh]
  · simp only [List.getD_cons_succ, List.getD_cons_zero, hsc.1]
    intro h
    have hz := congrArg V3.z h
    simp only at hz
    nlinarith [hml, hmh]

/-- C4 amended: (a) the bulk driver loop never writes to the row of an ion
already marked dead when the iteration starts — dead ions are never
revisited; (b) the scalar driver of `cascade.py` breaks out of the loop
BEFORE scattering when the advanced position leaves the target, so there
the reported state is exactly the at-exit state (direction unchanged).
The bulk driver however does write post-scatter values for an ion exiting
in the current iteration (see the counterexample). -/
theorem claim_C4_thm :
    (∀ (st : TrajectoryBulk.Setup) (rngs : ℕ → List (ℝ × ℝ)) (i fuel k : ℕ)
        (s : TrajectoryBulk.BState), s.inside.getD i false = false →
      (TrajectoryBulk.trajRun st rngs fuel k s).e.getD i 0 = s.e.getD i 0 ∧
      (TrajectoryBulk.trajRun st rngs fuel k s).pos.getD i V3.zero =
        s.pos.getD i V3.zero ∧
      (TrajectoryBulk.trajRun st rngs fuel k s).dir.getD i V3.zero =
        s.dir.getD i V3.zero ∧
      (TrajectoryBulk.trajRun st rngs fuel k s).inside.getD i false = false) ∧
    (∀ (st : Cascade.Setup) (rngs : ℕ → ℝ × ℝ) (fuel k : ℕ)
        (proj : Scatter.Projectile), st.emin < proj.e →
      Geometry.is_inside_target st.zmin st.zmax
        (V3.add proj.pos (V3.smul st.mfp proj.dir)) = false →
      Cascade.trajectoryRun st rngs (fuel + 1) k proj =
        { proj with
            e := proj.e - Estop.eloss st.fac_lindhard st.density proj.e st.mfp,
            pos := V3.add proj.pos (V3.smul st.mfp proj.dir),
            is_inside := false }) := by
  refine ⟨fun st rngs i fuel k s h => trajRun_dead st rngs i fuel k s h, ?_⟩
  intro st rngs fuel k proj he hout
  simp only [Cascade.trajectoryRun, SelectRecoil.get_recoil_position]
  rw [if_pos he, if_pos hout]

/-- Witness for `claim_C4_thm` at concrete inputs: a dead one-ion batch is
returned untouched by the bulk driver, and the scalar driver reports the
at-exit state for an ion leaving a thin slab on its first free path. -/
theorem claim_C4_witness :
    (TrajectoryBulk.trajRun ⟨5, 0, 4000, 1, 1, 0, 1, 1, 1, 1, 1⟩
        (fun _ => [(0, 0)]) 3 0
        ⟨[1], [V3.zero], [⟨0, 0, 1⟩], [false]⟩).e.getD 0 0 = 1 ∧
    Cascade.trajectoryRun
        ⟨5, 0, 1 / 2, 1, 1, 0, 1, ⟨fun _ => 1, fun _ => 1, fun _ => 1, fun _ => 1⟩⟩
        (fun _ => (0, 0)) 1 0 ⟨10, V3.zero, ⟨0, 0, 1⟩, 0, true⟩ =
      ⟨10, ⟨0, 0, 1⟩, ⟨0, 0, 1⟩, 0, false⟩ := by
  constructor
  · exact (claim_C4_thm.1 ⟨5, 0, 4000, 1, 1, 0, 1, 1, 1, 1, 1⟩ (fun _ => [(0, 0)])
      0 3 0 ⟨[1], [V3.zero], [⟨0, 0, 1⟩], [false]⟩ rfl).1
  · have h := claim_C4_thm.2
      ⟨5, 0, 1 / 2, 1, 1, 0, 1, ⟨fun _ => 1, fun _ => 1, fun _ => 1, fun _ => 1⟩⟩
      (fun _ => (0, 0)) 0 0 ⟨10, V3.zero, ⟨0, 0, 1⟩, 0, true⟩ (by norm_num)
      (by simp [Geometry.is_inside_target, V3.add, V3.smul, V3.zero]; norm_num)
    rw [h]
    simp [Estop.eloss, V3.add, V3.smul, V3.zero]
